import Mathlib

/-!
Verification development for the IoT environmental-monitor repository
(CPB sensor node `CPB/code.py` and `CPB/Main.py`, bridge
`Raspberry_Pi/main.py`, store `server.py`).

The Python sources are shallowly embedded: pure fragments become Lean
functions, module-level mutable state becomes explicit state records that
the embedded handlers take and return, numbers become `Int`/`ℚ` (the
sources use Python ints and floats on small in-range values; IEEE-754
rounding, `inf`/`nan` and numeric-literal underscores are not modelled),
and Python exceptions become `Option`/explicit error branches.  External
collaborators (BLE radio, sensors, HTTP transport, wall clock,
`json.loads`) are passed in as parameters, exactly at the call boundary
where the sources invoke them.
-/

namespace PyStr

/-- Python `str.strip()` (ASCII whitespace suffices for this protocol). -/
def pyStrip (s : String) : String :=
  String.mk (((s.data.dropWhile Char.isWhitespace).reverse.dropWhile Char.isWhitespace).reverse)

/-- Characterwise split helper for `str.split(sep)` (single-char separator). -/
def splitChar (sep : Char) : List Char → List (List Char)
  | [] => [[]]
  | c :: cs =>
    let r := splitChar sep cs
    if c = sep then [] :: r
    else match r with
         | [] => [[c]]
         | g :: gs => (c :: g) :: gs

/-- Python `line.split(",")`. -/
def pySplitOn (sep : Char) (s : String) : List String :=
  (splitChar sep s.data).map String.mk

/-- Python `str.split()` with no argument: split on whitespace runs,
dropping empty fields (hence also leading/trailing whitespace). -/
def pySplitWs (s : String) : List String :=
  ((splitChar ' ' (s.data.map (fun c => if Char.isWhitespace c then ' ' else c))).map
      String.mk).filter (fun t => t ≠ "")

/-- Python `p.split("=", 1)`: at most one split, at the first separator. -/
def pySplitFirst (sep : Char) (s : String) : List String :=
  match splitChar sep s.data with
  | [] => [s]
  | [g] => [String.mk g]
  | g :: gs => [String.mk g, String.mk (List.intercalate [sep] gs)]

/-- `strStartsWith s p`: Python `s.startswith(p)`. -/
def strStartsWith (s p : String) : Bool :=
  p.data.isPrefixOf s.data

/-- `strEndsWith s p`: Python `s.endswith(p)`. -/
def strEndsWith (s p : String) : Bool :=
  p.data.reverse.isPrefixOf s.data.reverse

/-- Python `str.upper()` (ASCII). -/
def pyUpper (s : String) : String :=
  String.mk (s.data.map Char.toUpper)

/-- Python `str.lower()` (ASCII). -/
def pyLower (s : String) : String :=
  String.mk (s.data.map Char.toLower)

end PyStr

namespace PyNum

/-- Numeric value of a list of decimal digits. -/
def natOfDigits (ds : List Char) : Nat :=
  ds.foldl (fun n c => 10 * n + (c.toNat - 48)) 0

/-- Leading sign of a numeric literal: returns (isNegative, rest). -/
def readSign : List Char → Bool × List Char
  | '+' :: cs => (false, cs)
  | '-' :: cs => (true, cs)
  | cs => (false, cs)

/-- Python `int(s)` on decimal string literals: optional surrounding
whitespace, optional sign, one or more digits. -/
def pyIntParse (s : String) : Option Int :=
  let t := PyStr.pyStrip s
  let (neg, cs) := readSign t.data
  if cs ≠ [] ∧ cs.all Char.isDigit then
    let n : Int := Int.ofNat (natOfDigits cs)
    some (if neg then -n else n)
  else
    none

/-- Value of one hexadecimal digit. -/
def hexDigitVal (c : Char) : Option Nat :=
  if c.isDigit then some (c.toNat - 48)
  else if 'a' ≤ c ∧ c ≤ 'f' then some (c.toNat - 87)
  else if 'A' ≤ c ∧ c ≤ 'F' then some (c.toNat - 55)
  else none

/-- Python `int(s, 16)`: optional whitespace, optional sign, optional
`0x`/`0X`, one or more hex digits. -/
def pyIntParseHex (s : String) : Option Int :=
  let t := PyStr.pyStrip s
  let (neg, cs) := readSign t.data
  let cs := match cs with
            | '0' :: 'x' :: rest => rest
            | '0' :: 'X' :: rest => rest
            | rest => rest
  if cs ≠ [] ∧ cs.all (fun c => (hexDigitVal c).isSome) then
    let n : Int :=
      Int.ofNat (cs.foldl (fun n c => 16 * n + ((hexDigitVal c).getD 0)) 0)
    some (if neg then -n else n)
  else
    none

/-- Exponent/terminator tail of a Python float literal: accepts the empty
tail or `e`/`E`, optional sign, digits; scales the mantissa by `10^±e`. -/
def floatTail (neg : Bool) (m : ℚ) : List Char → Option ℚ
  | [] => some (if neg then -m else m)
  | c :: cs =>
    if c = 'e' ∨ c = 'E' then
      let (eneg, cs2) := readSign cs
      if cs2 ≠ [] ∧ cs2.all Char.isDigit then
        let e := natOfDigits cs2
        let v := if eneg then m / (10 : ℚ) ^ e else m * (10 : ℚ) ^ e
        some (if neg then -v else v)
      else none
    else none

/-- Python `float(s)` on decimal literals `[ws][±][digits][.digits][e±digits][ws]`
(at least one digit in the mantissa; `inf`/`nan`/underscores not modelled). -/
def pyFloatParse (s : String) : Option ℚ :=
  let t := PyStr.pyStrip s
  let (neg, cs) := readSign t.data
  let ip := cs.takeWhile Char.isDigit
  let cs1 := cs.dropWhile Char.isDigit
  match cs1 with
  | '.' :: cs2 =>
    let fp := cs2.takeWhile Char.isDigit
    let cs3 := cs2.dropWhile Char.isDigit
    if ip = [] ∧ fp = [] then none
    else
      let m : ℚ := (natOfDigits ip : ℚ) + (natOfDigits fp : ℚ) / (10 : ℚ) ^ fp.length
      floatTail neg m cs3
  | _ =>
    if ip = [] then none
    else floatTail neg ((natOfDigits ip : ℚ)) cs1

/-- Python `int(x)` on a float: truncation toward zero. -/
def pyTrunc (q : ℚ) : Int :=
  if q < 0 then -(Rat.floor (-q)) else Rat.floor q

/-- Python `max(lo, min(hi, v))` on floats (`_clamp` in the bridge,
`_clamp_float` in the store). -/
def clampQ (v lo hi : ℚ) : ℚ := max lo (min hi v)

/-- Best-effort decimal rendering of a rational, standing in for Python's
`str(float)` in response lines no claim inspects (exact float repr is
floating point and not modelled). -/
def qRepr (q : ℚ) : String :=
  if q.den = 1 then toString q.num ++ ".0"
  else toString q.num ++ "/" ++ toString q.den

end PyNum

open PyStr PyNum

/-! ## CPB node (`src/CPB/code.py` and `src/CPB/Main.py`)

Both files are near-identical CircuitPython programs.  The mutable module
globals that the command parser touches (`farben`, `pixels.brightness`,
`telemetry_period`, `state`, and Main.py's low-pass accumulators
`ax_f`/`ay_f`/`az_f`) become the `NodeState` record.  Sensor readouts and
the monotonic clock are externals, passed in as `Env`.  Everything the
node writes over BLE UART is collected in an output list; `Out.ok m` and
`Out.err m` stand for the lines `"OK " + m + "\n"` / `"ERR " + m + "\n"`,
and the query responses carry their payloads structurally (their exact
float formatting is not inspected by any claim). -/

namespace CPB

/-- `STATE_WAIT, STATE_HANDLE, STATE_RESET, STATE_ERROR = range(4)` -/
def STATE_WAIT : Nat := 0
def STATE_HANDLE : Nat := 1
def STATE_RESET : Nat := 2
def STATE_ERROR : Nat := 3

def NUM_PIXELS : Nat := 10

/-- Mutable node state touched by the command handlers. -/
structure NodeState where
  /-- `farben`: the logical per-cell RGB buffer (always `NUM_PIXELS` cells). -/
  farben : List (Int × Int × Int)
  /-- `pixels.brightness` (0.0 .. 1.0). -/
  brightness : ℚ
  /-- `telemetry_period` in seconds. -/
  telemetry_period : ℚ
  /-- the `state` global of the state machine. -/
  state : Nat
  /-- Main.py low-pass accumulators `ax_f`, `ay_f`, `az_f` (unused by code.py). -/
  axf : ℚ
  ayf : ℚ
  azf : ℚ
deriving DecidableEq, Repr

/-- Sensor/clock readouts, i.e. what `read_temp_c`, `read_light`,
`read_acc_ms2` and `ms()` return on this tick (their internal exception
handling is inside those externals). -/
structure Env where
  tempC : ℚ
  lightRaw : Int
  lightNorm : ℚ
  msVal : Int
  ax : ℚ
  ay : ℚ
  az : ℚ
deriving DecidableEq, Repr

/-- One line written to BLE UART by the handler. -/
inductive Out where
  /-- `ok(msg)`: the line `"OK " + msg`. -/
  | ok (msg : String)
  /-- `err(msg)`: the line `"ERR " + msg`. -/
  | err (msg : String)
  /-- `send_status()`: `STAT bright=<int> colors=<per-cell list>`. -/
  | stat (bright : Int) (colors : List (Int × Int × Int))
  /-- `TEMP C=<t>` -/
  | temp (c : ℚ)
  /-- `LIGHT raw=<r> norm=<n>` -/
  | light (raw : Int) (norm : ℚ)
  /-- Main.py `ACC ax=.. ay=.. az=..` -/
  | acc (ax ay az : ℚ)
  /-- code.py `send_sens_line()`: `SENS,ms=..,temp_C=..,light_raw=..,light_norm=..` -/
  | sens (ms : Int) (tempC : ℚ) (lightRaw : Int) (lightNorm : ℚ)
  /-- Main.py `send_sens_line()`: adds raw and filtered acceleration. -/
  | sensAcc (ms : Int) (tempC : ℚ) (lightRaw : Int) (lightNorm : ℚ)
      (ax ay az axf ayf azf : ℚ)
deriving DecidableEq, Repr

/-- `clamp8(x)`: clamp to the 8-bit RGB range 0..255. -/
def clamp8 (x : Int) : Int := max 0 (min 255 x)

/-- `set_all(r, g, b)` applied to the `farben` buffer: every one of the
`NUM_PIXELS` cells is set to the clamped color (the physical
`aktualisiere()` write has no logical state). -/
def set_all (r g b : Int) : List (Int × Int × Int) :=
  List.replicate NUM_PIXELS (clamp8 r, clamp8 g, clamp8 b)

/-- `reset_all()` on the logical state: neutral color and default brightness
(the blue acknowledgement blink is physical only). -/
def reset_all (s : NodeState) : NodeState :=
  { s with farben := List.replicate NUM_PIXELS (40, 40, 40), brightness := 3/50 }

end CPB

namespace CPBCode

open CPB

/-- The body of `code.py`'s `handle_command` after tokenisation: the
`try:`-ed `if cmd == ... / elif ... / else` chain.  Any Python exception
inside the chain (a failing `int(...)`/`float(...)`) lands in the shared
`except` branch: `err("format")` and `state = STATE_RESET`.
`len(parts) == n` appears as `args.length = n - 1` since `parts = cmd :: args`. -/
def dispatchCmd (env : Env) (s : NodeState) (parts : List String) :
    NodeState × List Out :=
  match parts with
  | [] => (s, [])
  | p0 :: args =>
    let cmd := pyUpper p0
    if cmd = "FILL" ∧ args.length = 3 then
      match pyIntParse (args.getD 0 ""), pyIntParse (args.getD 1 ""),
          pyIntParse (args.getD 2 "") with
      | some r, some g, some b =>
        ({ s with farben := set_all r g b },
         [Out.ok ("FILL " ++ toString r ++ " " ++ toString g ++ " " ++ toString b)])
      | _, _, _ => ({ s with state := STATE_RESET }, [Out.err "format"])
    else if cmd = "FILLHEX" ∧ args.length = 1 then
      -- set_all_hex: strip, drop leading '#', require length 6, parse hex pairs
      let hs := String.mk ((pyStrip (args.getD 0 "")).data.dropWhile (fun c => c = '#'))
      if hs.length ≠ 6 then (s, [Out.err "hex"])
      else
        match pyIntParseHex (String.mk (hs.data.take 2)),
            pyIntParseHex (String.mk ((hs.data.drop 2).take 2)),
            pyIntParseHex (String.mk ((hs.data.drop 4).take 2)) with
        | some r, some g, some b =>
          ({ s with farben := set_all r g b }, [Out.ok ("FILLHEX " ++ args.getD 0 "")])
        | _, _, _ => ({ s with state := STATE_RESET }, [Out.err "format"])
    else if cmd = "BRIGHT" ∧ args.length = 1 then
      match pyIntParse (args.getD 0 "") with
      | some n =>
        let pct := max 0 (min 100 n)
        ({ s with brightness := (pct : ℚ) / 100 },
         [Out.ok ("BRIGHT " ++ toString pct)])
      | none => ({ s with state := STATE_RESET }, [Out.err "format"])
    else if cmd = "OFF" then
      ({ s with farben := set_all 0 0 0 }, [Out.ok "OFF"])
    else if cmd = "RESET" then
      -- acknowledgement first, then only the state flag: the actual
      -- clean-up happens centrally in STATE_RESET
      ({ s with state := STATE_RESET }, [Out.ok "RESET"])
    else if cmd = "GET?" ∨ cmd = "GET" then
      (s, [Out.stat (pyTrunc (s.brightness * 100)) s.farben])
    else if cmd = "GETTEMP?" ∨ cmd = "TEMP?" then
      (s, [Out.temp env.tempC])
    else if cmd = "GETLIGHT?" ∨ cmd = "LIGHT?" then
      (s, [Out.light env.lightRaw env.lightNorm])
    else if cmd = "GETSENS?" ∨ cmd = "SENS?" then
      (s, [Out.sens env.msVal env.tempC env.lightRaw env.lightNorm])
    else if cmd = "TELEM" ∧ args.length = 1 then
      if pyUpper (args.getD 0 "") = "OFF" then
        ({ s with telemetry_period := 0 }, [Out.ok "TELEM OFF"])
      else
        match pyFloatParse (args.getD 0 "") with
        | some v0 =>
          let v := if v0 < 0 then 0 else v0
          ({ s with telemetry_period := v }, [Out.ok ("TELEM " ++ qRepr v)])
        | none => ({ s with state := STATE_RESET }, [Out.err "format"])
    else
      (s, [Out.err "unknown"])

/-- `code.py` `handle_command(line)`: empty-line guards, tokenisation,
then the dispatch chain. -/
def handle_command (env : Env) (s : NodeState) (line : String) :
    NodeState × List Out :=
  if line = "" then (s, [])
  else
    match pySplitWs (pyStrip line) with
    | [] => (s, [])
    | parts => dispatchCmd env s parts

end CPBCode

namespace CPBMain

open CPB

/-- `alpha = 0.2`: low-pass coefficient of Main.py. -/
def alpha : ℚ := 1/5

/-- Main.py `send_sens_line()`: applies the low-pass filter to the
acceleration accumulators and emits the extended SENS line. -/
def send_sens_line (env : Env) (s : NodeState) : NodeState × Out :=
  let axf := (1 - alpha) * s.axf + alpha * env.ax
  let ayf := (1 - alpha) * s.ayf + alpha * env.ay
  let azf := (1 - alpha) * s.azf + alpha * env.az
  ({ s with axf := axf, ayf := ayf, azf := azf },
   Out.sensAcc env.msVal env.tempC env.lightRaw env.lightNorm
     env.ax env.ay env.az axf ayf azf)

/-- The body of `Main.py`'s `handle_command` after tokenisation.  It is the
same chain as code.py's, except that `RESET` runs `reset_all()` directly,
there is an extra `GETACC?`/`ACC?` branch, `SENS?` updates the low-pass
accumulators, and the shared `except` branch only sends `err("format")` —
it does not touch `state`. -/
def dispatchCmd (env : Env) (s : NodeState) (parts : List String) :
    NodeState × List Out :=
  match parts with
  | [] => (s, [])
  | p0 :: args =>
    let cmd := pyUpper p0
    if cmd = "FILL" ∧ args.length = 3 then
      match pyIntParse (args.getD 0 ""), pyIntParse (args.getD 1 ""),
          pyIntParse (args.getD 2 "") with
      | some r, some g, some b =>
        ({ s with farben := set_all r g b },
         [Out.ok ("FILL " ++ toString r ++ " " ++ toString g ++ " " ++ toString b)])
      | _, _, _ => (s, [Out.err "format"])
    else if cmd = "FILLHEX" ∧ args.length = 1 then
      let hs := String.mk ((pyStrip (args.getD 0 "")).data.dropWhile (fun c => c = '#'))
      if hs.length ≠ 6 then (s, [Out.err "hex"])
      else
        match pyIntParseHex (String.mk (hs.data.take 2)),
            pyIntParseHex (String.mk ((hs.data.drop 2).take 2)),
            pyIntParseHex (String.mk ((hs.data.drop 4).take 2)) with
        | some r, some g, some b =>
          ({ s with farben := set_all r g b }, [Out.ok ("FILLHEX " ++ args.getD 0 "")])
        | _, _, _ => (s, [Out.err "format"])
    else if cmd = "BRIGHT" ∧ args.length = 1 then
      match pyIntParse (args.getD 0 "") with
      | some n =>
        let pct := max 0 (min 100 n)
        ({ s with brightness := (pct : ℚ) / 100 },
         [Out.ok ("BRIGHT " ++ toString pct)])
      | none => (s, [Out.err "format"])
    else if cmd = "OFF" then
      ({ s with farben := set_all 0 0 0 }, [Out.ok "OFF"])
    else if cmd = "RESET" then
      -- Main.py resets directly in the handler, and leaves `state` alone
      (reset_all s, [Out.ok "RESET"])
    else if cmd = "GET?" ∨ cmd = "GET" then
      (s, [Out.stat (pyTrunc (s.brightness * 100)) s.farben])
    else if cmd = "GETTEMP?" ∨ cmd = "TEMP?" then
      (s, [Out.temp env.tempC])
    else if cmd = "GETLIGHT?" ∨ cmd = "LIGHT?" then
      (s, [Out.light env.lightRaw env.lightNorm])
    else if cmd = "GETACC?" ∨ cmd = "ACC?" then
      (s, [Out.acc env.ax env.ay env.az])
    else if cmd = "GETSENS?" ∨ cmd = "SENS?" then
      let r := send_sens_line env s
      (r.1, [r.2])
    else if cmd = "TELEM" ∧ args.length = 1 then
      if pyUpper (args.getD 0 "") = "OFF" then
        ({ s with telemetry_period := 0 }, [Out.ok "TELEM OFF"])
      else
        match pyFloatParse (args.getD 0 "") with
        | some v0 =>
          let v := if v0 < 0 then 0 else v0
          ({ s with telemetry_period := v }, [Out.ok ("TELEM " ++ qRepr v)])
        | none => (s, [Out.err "format"])
    else
      (s, [Out.err "unknown"])

/-- `Main.py` `handle_command(line)`. -/
def handle_command (env : Env) (s : NodeState) (line : String) :
    NodeState × List Out :=
  if line = "" then (s, [])
  else
    match pySplitWs (pyStrip line) with
    | [] => (s, [])
    | parts => dispatchCmd env s parts

end CPBMain

/-! ## Store API (`src/server.py`, `PUT /led`)

JSON values produced by `json.loads` are embedded as `JVal` (numbers split
into integers and non-integers as Python does; object fields are an
association list with unique keys).  The module global `LED` becomes
`LedState`; the HTTP response of the `/led` branch of `do_PUT` becomes
`LedResp` (`badRequest msg` is the 400 answer `{"error": msg}`,
`ok st` the 200 answer echoing the new state). -/

namespace Store

/-- An already-parsed JSON value (the output of `json.loads`). -/
inductive JVal where
  | null : JVal
  | jb (b : Bool) : JVal
  | ji (n : Int) : JVal
  | jq (q : ℚ) : JVal
  | js (s : String) : JVal
  | jarr (xs : List JVal) : JVal
  | jobj (fields : List (String × JVal)) : JVal

/-- `d.get(k)` on a parsed JSON object (keys are unique). -/
def objGet (fields : List (String × JVal)) (k : String) : Option JVal :=
  (fields.find? (fun p => p.1 = k)).map (fun p => p.2)

/-- Python `int(v)` on a JSON value: ints as-is, bools as 0/1, floats
truncated toward zero, numeric strings parsed; everything else raises
(`none`). -/
def pyIntOfJVal : JVal → Option Int
  | JVal.ji n => some n
  | JVal.jb b => some (if b then 1 else 0)
  | JVal.jq q => some (PyNum.pyTrunc q)
  | JVal.js s => PyNum.pyIntParse s
  | _ => none

/-- `_clamp_int(v, lo, hi)`: `int(v)` then `max(lo, min(hi, v))`; `None`
when the conversion raises. -/
def clamp_int (v : JVal) (lo hi : Int) : Option Int :=
  (pyIntOfJVal v).map (fun n => max lo (min hi n))

/-- The `LED` module global. -/
structure LedState where
  /-- the `"on"` key of `LED`. -/
  ledOn : Bool
  rgb : List Int
  brightness : Int
  updatedAt : Option String
deriving DecidableEq, Repr

/-- `LED`'s initial value. -/
def initialLED : LedState := { ledOn := false, rgb := [255, 160, 0], brightness := 20, updatedAt := none }

/-- The `/led` branch's HTTP answer. -/
inductive LedResp where
  /-- 200 with the updated state as body. -/
  | ok (st : LedState)
  /-- 400 with `{"error": msg}` as body. -/
  | badRequest (msg : String)
deriving DecidableEq, Repr

/-- `on = payload.get("on", LED["on"])`, then the `isinstance(on, bool)`
check: `none` means the 400 "on must be boolean" answer. -/
def onField (payload : List (String × JVal)) (led : LedState) : Option Bool :=
  match objGet payload "on" with
  | none => some led.ledOn
  | some (JVal.jb b) => some b
  | some _ => none

/-- `rgb = payload.get("rgb", LED["rgb"])`, then the
`isinstance(rgb, (list, tuple))` check: `none` means the 400
"rgb must be [r,g,b]" answer (the length check follows separately). -/
def rgbField (payload : List (String × JVal)) (led : LedState) :
    Option (List JVal) :=
  match objGet payload "rgb" with
  | none => some (led.rgb.map JVal.ji)
  | some (JVal.jarr xs) => some xs
  | some _ => none

/-- The `/led` branch of `Handler.do_PUT`, applied to an already-decoded
JSON object body: validation, clamping, and the `LED.update` call.
Returns the response together with the (possibly updated) `LED`.
`now` stands for `now_iso()`; `bri = payload.get("brightness", LED["brightness"])`
appears inline in its `_clamp_int` call. -/
def ledPut (payload : List (String × JVal)) (led : LedState) (now : String) :
    LedResp × LedState :=
  match onField payload led with
  | none => (LedResp.badRequest "on must be boolean", led)
  | some onB =>
    match rgbField payload led with
    | none => (LedResp.badRequest "rgb must be [r,g,b]", led)
    | some xs =>
      if xs.length = 3 then
        match clamp_int (xs.getD 0 JVal.null) 0 255,
            clamp_int (xs.getD 1 JVal.null) 0 255,
            clamp_int (xs.getD 2 JVal.null) 0 255,
            clamp_int ((objGet payload "brightness").getD
              (JVal.ji led.brightness)) 0 100 with
        | some r, some g, some b, some bri =>
          let newLed : LedState :=
            { ledOn := onB, rgb := [r, g, b], brightness := bri,
              updatedAt := some now }
          (LedResp.ok newLed, newLed)
        | _, _, _, _ => (LedResp.badRequest "invalid rgb/brightness", led)
      else (LedResp.badRequest "rgb must be [r,g,b]", led)

/-- The claim's scenario-B body `{"on":true,"rgb":[10,20,300],"brightness":150}`. -/
def scenarioB : List (String × JVal) :=
  [("on", JVal.jb true), ("rgb", JVal.jarr [JVal.ji 10, JVal.ji 20, JVal.ji 300]),
   ("brightness", JVal.ji 150)]

end Store

/-! ## Bridge (`src/Raspberry_Pi/main.py`)

The telemetry normalizer `parse_line` and its helpers, the byte-stream
`LineAssembler`, the coalescing `PutWorker` slot, and the `LedWorker`
poll-and-diff logic.  `json.loads` is an external library call; it enters
`parse_line` as the parameter `jload` (returning `none` when it raises),
and its output is a `Store.JVal`.  `_now_iso()` enters as the `now`
parameter. -/

namespace Bridge

open Store (JVal objGet)

/-- The bridge's `current` dict: the last known full record the normalizer
back-fills from.  The bridge initialises it fully populated and rebuilds
it fully populated after every accepted record, so the `.get` defaults
(`20.0`, `0`, `0.0`) in `parse_line` are never exercised. -/
structure LastState where
  temperatureC : ℚ
  lightRaw : Int
  lightNorm : ℚ
deriving DecidableEq, Repr

/-- The output of `_finalize_state`:
`{"temperatureC": t, "light": {"raw": r, "norm": n}, "timestamp": ts}`
(the timestamp is whatever JSON value the input carried, or the supplied
ISO string). -/
structure TelemetryRecord where
  temperatureC : ℚ
  lightRaw : Int
  lightNorm : ℚ
  timestamp : JVal

/-- Python dict assignment `out[k] = v` on a string-keyed dict. -/
def dictSet (d : List (String × String)) (k v : String) : List (String × String) :=
  if d.any (fun p => p.1 = k) then d.map (fun p => if p.1 = k then (k, v) else p)
  else d ++ [(k, v)]

/-- Python `dict.get(k)` (string dict). -/
def dictGet (d : List (String × String)) (k : String) : Option String :=
  (d.find? (fun p => p.1 = k)).map (fun p => p.2)

/-- `_parse_kv_csv(line)`: split on commas, drop a first field with no
`=` (the `SENS` tag), then collect `k=v` fields, keys stripped and
lowercased, values stripped, later keys overwriting earlier ones. -/
def parse_kv_csv (line : String) : List (String × String) :=
  let parts := pySplitOn ',' line
  let parts :=
    match parts with
    | p0 :: rest => if (splitChar '=' p0.data).length = 1 then rest else p0 :: rest
    | [] => []
  parts.foldl
    (fun out p =>
      match pySplitFirst '=' p with
      | [k, v] => dictSet out (pyLower (pyStrip k)) (pyStrip v)
      | _ => out)
    []

/-- `_to_float_or_none(v)`. -/
def to_float_or_none (v : Option String) : Option ℚ :=
  match v with
  | none => none
  | some s => pyFloatParse s

/-- Python `a or b` on `Optional[float]` operands: `None` and `0.0` are
falsy, so a parsed value of exactly zero falls through to the next
candidate. -/
def pyOrQ (a b : Option ℚ) : Option ℚ :=
  match a with
  | some x => if x ≠ 0 then some x else b
  | none => b

/-- Python truthiness of a JSON value. -/
def pyTruthy : JVal → Bool
  | JVal.null => false
  | JVal.jb b => b
  | JVal.ji n => n ≠ 0
  | JVal.jq q => q ≠ 0
  | JVal.js s => s ≠ ""
  | JVal.jarr xs => !xs.isEmpty
  | JVal.jobj f => !f.isEmpty

/-- Python `a or b` where `a` is the result of a `dict.get` (a JSON value
or `None`). -/
def pyOrJ (a : Option JVal) (b : Option JVal) : Option JVal :=
  match a with
  | some v => if pyTruthy v then some v else b
  | none => b

/-- Python `float(v)` on a JSON value; `none` when it raises. -/
def pyFloatOfJVal : JVal → Option ℚ
  | JVal.ji n => some (n : ℚ)
  | JVal.jq q => some q
  | JVal.jb b => some (if b then 1 else 0)
  | JVal.js s => pyFloatParse s
  | _ => none

/-- `_finalize_state(t, light_raw, light_norm, ts)`: clamp temperature to
[-20, 60], truncate the raw light value to a non-negative int, clamp the
normalized light value to [0, 1]. -/
def finalize_state (t lr ln : ℚ) (ts : JVal) : TelemetryRecord :=
  { temperatureC := clampQ t (-20) 60
    lightRaw := max 0 (pyTrunc lr)
    lightNorm := clampQ ln 0 1
    timestamp := ts }

/-- The `SENS` branch of `parse_line` (lines 81-95): key=value fields, the
`or`-chained temperature candidates, back-filling from `last`, then
`_finalize_state`. -/
def sensBranch (l : String) (last : LastState) (now : String) : TelemetryRecord :=
  let kv := parse_kv_csv l
  let t :=
    pyOrQ (pyOrQ (pyOrQ (to_float_or_none (dictGet kv "temp_c"))
                        (to_float_or_none (dictGet kv "temperaturec")))
                 (to_float_or_none (dictGet kv "temp")))
          (to_float_or_none (dictGet kv "t"))
  let lr := to_float_or_none (dictGet kv "light_raw")
  let ln := to_float_or_none (dictGet kv "light_norm")
  let t := t.getD last.temperatureC
  let lr := lr.getD (last.lightRaw : ℚ)
  let ln := ln.getD last.lightNorm
  finalize_state t lr ln (JVal.js now)

/-- The JSON branch of `parse_line` (lines 96-110), applied to the value
`json.loads` produced.  Any Python exception inside the `try` block — a
`.get` on a non-dict, a `float()` on a non-numeric value — is caught by
the `except: pass`, making the whole branch yield `none`.  A JSON `null`
field is Python `None`, hence back-filled exactly like a missing key. -/
def jsonBody (raw : JVal) (last : LastState) (now : String) : Option TelemetryRecord :=
  match raw with
  | JVal.jobj f =>
    let tPy := pyOrJ (pyOrJ (objGet f "temperatureC") (objGet f "temp")) (objGet f "t")
    -- light = raw.get("light") or {}
    let lightV : JVal :=
      match objGet f "light" with
      | some v => if pyTruthy v then v else JVal.jobj []
      | none => JVal.jobj []
    match lightV with
    | JVal.jobj lf =>
      -- lr = light.get("raw", raw.get("light_raw")); ln likewise
      let lrPy : Option JVal :=
        match objGet lf "raw" with
        | some v => some v
        | none => objGet f "light_raw"
      let lnPy : Option JVal :=
        match objGet lf "norm" with
        | some v => some v
        | none => objGet f "light_norm"
      let tQ : Option ℚ :=
        match tPy with
        | none => some last.temperatureC
        | some JVal.null => some last.temperatureC
        | some v => pyFloatOfJVal v
      let lrQ : Option ℚ :=
        match lrPy with
        | none => some (last.lightRaw : ℚ)
        | some JVal.null => some (last.lightRaw : ℚ)
        | some v => pyFloatOfJVal v
      let lnQ : Option ℚ :=
        match lnPy with
        | none => some last.lightNorm
        | some JVal.null => some last.lightNorm
        | some v => pyFloatOfJVal v
      let tsv : JVal :=
        match objGet f "timestamp" with
        | some v => if pyTruthy v then v else JVal.js now
        | none => JVal.js now
      match tQ, lrQ, lnQ with
      | some t, some lr, some ln => some (finalize_state t lr ln tsv)
      | _, _, _ => none
    | _ => none
  | _ => none

/-- `parse_line(line, last)`: strip; try the `SENS` tagged form, then the
brace-wrapped JSON form; everything else is ignored (`None`).  `jload`
stands for `json.loads` (`none` when it raises), `now` for `_now_iso()`. -/
def parse_line (jload : String → Option JVal) (now : String) (line : String)
    (last : LastState) : Option TelemetryRecord :=
  let l := pyStrip line
  if l = "" then none
  else if strStartsWith l "SENS" then some (sensBranch l last now)
  else if strStartsWith l "\x7b" && strEndsWith l "\x7d" then
    match jload l with
    | some raw => jsonBody raw last now
    | none => none
  else none

/-- A `json.loads` stand-in for inputs whose brace branch is never
reached (it refuses every string). -/
def jloadNone : String → Option JVal := fun _ => none

end Bridge

namespace Bridge

/-- One step of `LineAssembler.feed`'s `while True` loop, unrolled over the
buffer: split the byte buffer at every `0x0A`, returning the complete
lines (bytes before each newline, newline consumed) and the leftover
bytes after the last newline. -/
def extractLines : List Nat → List (List Nat) × List Nat
  | [] => ([], [])
  | b :: rest =>
    let r := extractLines rest
    if b = 10 then ([] :: r.1, r.2)
    else
      match r.1 with
      | [] => ([], b :: r.2)
      | l :: ls => ((b :: l) :: ls, r.2)

/-- Is `b` a UTF-8 continuation byte? -/
def isCont (b : Nat) : Bool := 128 ≤ b && b ≤ 191

/-- Python `bytes.decode("utf-8", "ignore")`: well-formed sequences decode
normally; malformed or truncated bytes are dropped and decoding resumes
at the following byte (this byte-at-a-time resynchronisation agrees with
CPython's handler on well-formed input and always drops invalid input
without raising). -/
def utf8DecodeIgnore : List Nat → List Char
  | [] => []
  | b :: rest =>
    if b < 128 then Char.ofNat b :: utf8DecodeIgnore rest
    else if 194 ≤ b ∧ b ≤ 223 then
      match rest with
      | [] => []
      | c1 :: rest1 =>
        if isCont c1 then
          Char.ofNat ((b - 192) * 64 + (c1 - 128)) :: utf8DecodeIgnore rest1
        else utf8DecodeIgnore (c1 :: rest1)
    else if 224 ≤ b ∧ b ≤ 239 then
      match rest with
      | [] => []
      | [_] => []
      | c1 :: c2 :: rest2 =>
        if isCont c1 && isCont c2 then
          let cp := (b - 224) * 4096 + (c1 - 128) * 64 + (c2 - 128)
          if 2048 ≤ cp ∧ ¬(55296 ≤ cp ∧ cp ≤ 57343) then
            Char.ofNat cp :: utf8DecodeIgnore rest2
          else utf8DecodeIgnore (c1 :: c2 :: rest2)
        else utf8DecodeIgnore (c1 :: c2 :: rest2)
    else if 240 ≤ b ∧ b ≤ 244 then
      match rest with
      | [] => []
      | [_] => []
      | [_, _] => []
      | c1 :: c2 :: c3 :: rest3 =>
        if isCont c1 && isCont c2 && isCont c3 then
          let cp := (b - 240) * 262144 + (c1 - 128) * 4096 + (c2 - 128) * 64 + (c3 - 128)
          if 65536 ≤ cp ∧ cp ≤ 1114111 then
            Char.ofNat cp :: utf8DecodeIgnore rest3
          else utf8DecodeIgnore (c1 :: c2 :: c3 :: rest3)
        else utf8DecodeIgnore (c1 :: c2 :: c3 :: rest3)
    else utf8DecodeIgnore rest
termination_by bs => bs.length
decreasing_by all_goals simp_arith [List.length]

/-- Python `str.rstrip("\r")`: drop every trailing carriage return. -/
def rstripCR (cs : List Char) : List Char :=
  (cs.reverse.dropWhile (fun c => c = '\r')).reverse

/-- One extracted byte line, decoded and `\r`-stripped
(`chunk.decode("utf-8", "ignore").rstrip("\r")`). -/
def decodeLine (bs : List Nat) : String :=
  String.mk (rstripCR (utf8DecodeIgnore bs))

/-- `LineAssembler`: its only state is the byte accumulator `_buf`. -/
structure LineAssembler where
  buf : List Nat
deriving DecidableEq, Repr

/-- `LineAssembler.feed(data)`: append, then extract/decode every complete
line; leftover bytes stay buffered.  (The `except UnicodeDecodeError`
around the append is dead: decoding with `"ignore"` never raises.) -/
def LineAssembler.feed (a : LineAssembler) (data : List Nat) :
    List String × LineAssembler :=
  let r := extractLines (a.buf ++ data)
  (r.1.map decodeLine, ⟨r.2⟩)

/-- Feed a list of chunks in order to one assembler, concatenating the
returned lines over the calls. -/
def feedAll (a : LineAssembler) : List (List Nat) → List String × LineAssembler
  | [] => ([], a)
  | c :: cs =>
    let r := a.feed c
    let rest := feedAll r.2 cs
    (r.1 ++ rest.1, rest.2)

end Bridge

/-! ## Coalescing uplink worker (`PutWorker`) and actuator sync worker
(`LedWorker`), `src/Raspberry_Pi/main.py` -/

namespace PutWorker

open Bridge

/-- `PutWorker.submit(state)`: overwrite the single `latest` slot
(latest-wins, never queued). -/
def submit (latest : Option TelemetryRecord) (st : TelemetryRecord) :
    Option TelemetryRecord :=
  let _ := latest
  some st

/-- One tick of `PutWorker._run`: `if not self.latest: continue` (a
present record is a non-empty dict, hence truthy), else take the payload
and clear the slot before sending.  Returns (the record sent this tick,
if any; the slot afterwards).  A send failure is logged and does not
restore the slot. -/
def tick (latest : Option TelemetryRecord) :
    Option TelemetryRecord × Option TelemetryRecord :=
  match latest with
  | none => (none, none)
  | some r => (some r, none)

end PutWorker

namespace LedWorker

/-- The desired actuator state fetched from `GET /led`.  The store always
serves the full object `{on, rgb, brightness, updatedAt}` (so the `.get`
defaults `20` and `[255,160,0]` in `_apply` are not exercised), and
`desire == self.last_applied` is structural dict equality over all four
keys. -/
structure LedDesire where
  ledOn : Bool
  rgb : Int × Int × Int
  brightness : Int
  updatedAt : Option String
deriving DecidableEq, Repr

/-- `LedWorker._apply(desire)`: given the previously applied value
(`self.last_applied`, `none` at start-up) and the fetched desired state
(`none` when the fetch failed or returned non-200), produce the list of
lines written downstream, in order, and the new `last_applied`. -/
def applyDesire (last : Option LedDesire) (desire : Option LedDesire) :
    List String × Option LedDesire :=
  match desire with
  | none => ([], last)
  | some d =>
    if some d = last then ([], last)
    else if d.ledOn then
      -- order: brightness first, then fill
      (["BRIGHT " ++ toString d.brightness ++ "\n",
        "FILL " ++ toString d.rgb.1 ++ " " ++ toString d.rgb.2.1 ++ " "
          ++ toString d.rgb.2.2 ++ "\n"],
       some d)
    else (["OFF\n"], some d)

end LedWorker

/-! ## Rate limiter

Modelled from the spec: the repository's sources contain no rate-limiter
code; the spec describes the component in §2 ("sliding-window admission
control over command throughput"), §3 ("**RateLimiterWindow**: ordered
sequence of admission timestamps within the trailing 1-second window;
bounded length; purely time-based eviction") and §8 (at most N commands
admitted in any trailing 1-second window; the (N+1)-th is rejected with a
rate-limit error).  Time is in milliseconds; the window length is 1000. -/

namespace RateLimiter

/-- The trailing window, in milliseconds. -/
def windowMs : Nat := 1000

/-- Modelled from the spec: is admission timestamp `a` inside the trailing
window of length `W` ending at instant `w`? -/
def inWindow (W w a : Nat) : Bool := a ≤ w && w < a + W

/-- Modelled from the spec: one admission decision at arrival time `t`.
Entries older than the window are evicted purely by age; if fewer than
`N` admissions remain in the window the command is admitted and its
timestamp recorded, otherwise it is rejected with a rate-limit error
(`false`). -/
def step (N W : Nat) (st : List Nat) (t : Nat) : List Nat × Bool :=
  let kept := st.filter (fun a => t < a + W)
  if kept.length < N then (kept ++ [t], true) else (kept, false)

/-- Modelled from the spec: run the limiter over a sequence of arrival
timestamps, starting from window `st` and already-admitted list `adm`;
returns the final window and the list of admitted timestamps. -/
def runFrom (N W : Nat) (p : List Nat × List Nat) : List Nat → List Nat × List Nat
  | [] => p
  | t :: ts =>
    let q := step N W p.1 t
    runFrom N W (q.1, if q.2 then p.2 ++ [t] else p.2) ts

/-- Modelled from the spec: the limiter on a fresh start. -/
def run (N W : Nat) (arrivals : List Nat) : List Nat × List Nat :=
  runFrom N W ([], []) arrivals

end RateLimiter

/-! ## Lemmas about the line assembler -/

namespace Bridge

theorem extractLines_cons (b : Nat) (u : List Nat) :
    extractLines (b :: u) =
      (if b = 10 then ([] :: (extractLines u).1, (extractLines u).2)
       else
         match (extractLines u).1 with
         | [] => ([], b :: (extractLines u).2)
         | l :: ls => ((b :: l) :: ls, (extractLines u).2)) := by
  simp [extractLines]

theorem extractLines_append (x y : List Nat) :
    extractLines (x ++ y) =
      ((extractLines x).1 ++ (extractLines ((extractLines x).2 ++ y)).1,
       (extractLines ((extractLines x).2 ++ y)).2) := by
  induction x with
  | nil => simp [extractLines]
  | cons b t ih =>
    rw [List.cons_append, extractLines_cons, extractLines_cons, ih]
    by_cases hb : b = 10
    · simp [hb]
    · cases h : (extractLines t).1 with
      | nil =>
        simp only [h, if_neg hb, List.nil_append]
        rw [List.cons_append, extractLines_cons]
        simp only [if_neg hb]
      | cons l ls =>
        simp [h, hb]

theorem extractLines_no_nl (l : List Nat) (h : 10 ∉ l) :
    extractLines l = ([], l) := by
  induction l with
  | nil => simp [extractLines]
  | cons b t ih =>
    have hb : b ≠ 10 := fun hx => h (hx ▸ List.mem_cons_self b t)
    have ht : 10 ∉ t := fun hx => h (List.mem_cons_of_mem b hx)
    simp [extractLines, ih ht, hb]

theorem no_nl_rem (l : List Nat) : 10 ∉ (extractLines l).2 := by
  induction l with
  | nil => simp [extractLines]
  | cons b t ih =>
    by_cases hb : b = 10
    · subst hb; simpa [extractLines] using ih
    · cases h : (extractLines t).1 with
      | nil =>
        simp only [extractLines, h, if_neg hb]
        intro hx
        rcases List.mem_cons.mp hx with h10 | h10
        · exact hb h10.symm
        · exact ih h10
      | cons l1 ls => simpa [extractLines, h, hb] using ih

theorem feedAll_join (chunks : List (List Nat)) :
    ∀ a : LineAssembler, 10 ∉ a.buf →
      feedAll a chunks = a.feed chunks.flatten := by
  induction chunks with
  | nil =>
    intro a ha
    simp [feedAll, LineAssembler.feed, extractLines_no_nl a.buf ha]
  | cons c cs ih =>
    intro a ha
    have hrem : 10 ∉ (extractLines (a.buf ++ c)).2 := no_nl_rem _
    simp only [feedAll, LineAssembler.feed, ih ⟨(extractLines (a.buf ++ c)).2⟩ hrem,
      List.flatten_cons]
    rw [show a.buf ++ (c ++ cs.flatten) = (a.buf ++ c) ++ cs.flatten by simp,
      extractLines_append (a.buf ++ c) cs.flatten]
    simp

end Bridge

/-! ## Lemmas about the rate limiter model -/

namespace RateLimiter

/-- Invariant tying the window to the admission history: every admitted
timestamp is at most the current instant `t`, the stored window is
exactly the admitted timestamps still inside the trailing window at `t`,
and no trailing window of any instant holds more than `N` admissions. -/
def Good (N W t : Nat) (p : List Nat × List Nat) : Prop :=
  (∀ a ∈ p.2, a ≤ t) ∧
  p.1 = p.2.filter (fun a => decide (t < a + W)) ∧
  ∀ w, p.2.countP (inWindow W w) ≤ N

theorem filter_window_shift {W T t' : Nat} (ht : T ≤ t') (adm : List Nat) :
    (adm.filter (fun a => decide (T < a + W))).filter
        (fun a => decide (t' < a + W)) =
      adm.filter (fun a => decide (t' < a + W)) := by
  rw [List.filter_filter]
  refine List.filter_congr (fun a _ => ?_)
  by_cases hx : t' < a + W
  · have hT : T < a + W := lt_of_le_of_lt ht hx
    simp [hx, hT]
  · simp [hx]

theorem step_good {N W t t' : Nat} {p : List Nat × List Nat} (hW : 0 < W)
    (h : Good N W t p) (ht : t ≤ t') :
    Good N W t'
      ((step N W p.1 t').1,
       if (step N W p.1 t').2 then p.2 ++ [t'] else p.2) := by
  obtain ⟨hle, hst, hcnt⟩ := h
  have hkept : p.1.filter (fun a => decide (t' < a + W)) =
      p.2.filter (fun a => decide (t' < a + W)) := by
    rw [hst]; exact filter_window_shift ht p.2
  by_cases hadm : (p.1.filter (fun a => decide (t' < a + W))).length < N
  · -- admitted
    have hs : step N W p.1 t' =
        (p.1.filter (fun a => decide (t' < a + W)) ++ [t'], true) := by
      simp [step, hadm]
    have hpair : ((step N W p.1 t').1,
        if (step N W p.1 t').2 then p.2 ++ [t'] else p.2) =
        (p.1.filter (fun a => decide (t' < a + W)) ++ [t'], p.2 ++ [t']) := by
      rw [hs]
      rfl
    rw [hpair]
    refine ⟨?_, ?_, ?_⟩
    · intro a ha
      rcases List.mem_append.mp ha with ha | ha
      · exact le_trans (hle a ha) ht
      · rw [List.mem_singleton] at ha
        omega
    · show p.1.filter (fun a => decide (t' < a + W)) ++ [t'] =
        (p.2 ++ [t']).filter (fun a => decide (t' < a + W))
      rw [List.filter_append, hkept]
      congr 1
      simp [hW]
    · intro w
      show List.countP (inWindow W w) (p.2 ++ [t']) ≤ N
      rw [List.countP_append]
      by_cases hw : inWindow W w t' = true
      · have hw2 : t' ≤ w ∧ w < t' + W := by simpa [inWindow] using hw
        have hmono : p.2.countP (inWindow W w) ≤
            p.2.countP (fun a => decide (t' < a + W)) := by
          refine List.countP_mono_left (fun a _ hin => ?_)
          have hin2 : a ≤ w ∧ w < a + W := by simpa [inWindow] using hin
          have : t' < a + W := lt_of_le_of_lt hw2.1 hin2.2
          simpa using this
        have hlen : p.2.countP (fun a => decide (t' < a + W)) =
            (p.2.filter (fun a => decide (t' < a + W))).length := by
          simp [List.countP_eq_length_filter]
        rw [hkept] at hadm
        have h1 : p.2.countP (inWindow W w) < N := by
          calc p.2.countP (inWindow W w)
              ≤ (p.2.filter (fun a => decide (t' < a + W))).length :=
                hlen ▸ hmono
            _ < N := hadm
        have h2 : List.countP (inWindow W w) [t'] ≤ 1 := by
          simp only [List.countP_cons, List.countP_nil]
          split <;> omega
        omega
      · have h2 : List.countP (inWindow W w) [t'] = 0 := by
          simp [List.countP_cons, hw]
        rw [h2]
        simpa using hcnt w
  · -- rejected
    have hs : step N W p.1 t' =
        (p.1.filter (fun a => decide (t' < a + W)), false) := by
      simp [step, hadm]
    have hpair : ((step N W p.1 t').1,
        if (step N W p.1 t').2 then p.2 ++ [t'] else p.2) =
        (p.1.filter (fun a => decide (t' < a + W)), p.2) := by
      rw [hs]
      rfl
    rw [hpair]
    exact ⟨fun a ha => le_trans (hle a ha) ht, hkept.symm.symm, hcnt⟩

theorem runFrom_good {N W : Nat} (hW : 0 < W) :
    ∀ (arr : List Nat) (p : List Nat × List Nat) (t : Nat),
      Good N W t p → List.Chain (· ≤ ·) t arr →
      Good N W (arr.getLastD t) (runFrom N W p arr) := by
  intro arr
  induction arr with
  | nil => intro p t h _; simpa [runFrom] using h
  | cons a tl ih =>
    intro p t h hch
    rw [List.chain_cons] at hch
    obtain ⟨hta, hch⟩ := hch
    rw [List.getLastD_cons]
    exact ih _ a (step_good hW h hta) hch

theorem runFrom_append (N W : Nat) (xs ys : List Nat) :
    ∀ p, runFrom N W p (xs ++ ys) = runFrom N W (runFrom N W p xs) ys := by
  induction xs with
  | nil => intro p; simp [runFrom]
  | cons x xt ih => intro p; simp only [List.cons_append, runFrom]; exact ih _

theorem chain_zero_of_sorted {l : List Nat} (h : List.Chain' (· ≤ ·) l) :
    List.Chain (· ≤ ·) 0 l := by
  cases l with
  | nil => exact List.Chain.nil
  | cons a tl => exact List.Chain.cons (Nat.zero_le a) h

theorem chain_getLastD_le {b : Nat} :
    ∀ {arr : List Nat} {t : Nat},
      List.Chain (· ≤ ·) t (arr ++ [b]) → arr.getLastD t ≤ b := by
  intro arr
  induction arr with
  | nil =>
    intro t h
    rw [List.nil_append, List.chain_cons] at h
    simpa using h.1
  | cons a tl ih =>
    intro t h
    rw [List.cons_append, List.chain_cons] at h
    rw [List.getLastD_cons]
    exact ih h.2

theorem good_run {N : Nat} (arrivals : List Nat)
    (hsorted : List.Chain' (· ≤ ·) arrivals) :
    Good N windowMs (arrivals.getLastD 0) (run N windowMs arrivals) := by
  have h0 : Good N windowMs 0 ([], []) := by
    refine ⟨by simp, by simp, by simp⟩
  exact runFrom_good (by simp [windowMs]) arrivals ([], []) 0 h0
    (chain_zero_of_sorted hsorted)

end RateLimiter

/-! ## Shared concrete fixtures -/

/-- A benign sensor environment for concrete runs (temperature 20 °C,
light 100 raw, ms counter at 5). -/
def env0 : CPB.Env := ⟨20, 100, 1/655, 5, 0, 0, 0⟩

/-- The node state right after connecting: neutral colors, default
brightness 0.06, telemetry at 1 Hz, `STATE_HANDLE`. -/
def s0 : CPB.NodeState :=
  ⟨List.replicate 10 (40, 40, 40), 3/50, 1, CPB.STATE_HANDLE, 0, 0, 0⟩

/-- The bridge's initial `current` record. -/
def last0 : Bridge.LastState := ⟨20, 0, 0⟩

/-! ## Claim C4 -/

/-- **C4**: the (spec-modelled) rate limiter admits at most `N` commands
whose timestamps lie in any trailing 1-second window, for every
chronologically ordered arrival sequence, evicting purely by age; and
when `N` admissions already lie in the trailing window of a further
arrival `t`, that arrival is rejected with a rate-limit error (`step`
answers `false`) and the admitted set is unchanged. -/
theorem c4_rate_limiter (N : Nat) (arrivals : List Nat)
    (hsorted : List.Chain' (· ≤ ·) arrivals) :
    (∀ w, (RateLimiter.run N RateLimiter.windowMs arrivals).2.countP
        (RateLimiter.inWindow RateLimiter.windowMs w) ≤ N)
    ∧ (∀ t, List.Chain' (· ≤ ·) (arrivals ++ [t]) →
        N ≤ (RateLimiter.run N RateLimiter.windowMs arrivals).2.countP
            (RateLimiter.inWindow RateLimiter.windowMs t) →
        (RateLimiter.step N RateLimiter.windowMs
            (RateLimiter.run N RateLimiter.windowMs arrivals).1 t).2 = false
        ∧ (RateLimiter.run N RateLimiter.windowMs (arrivals ++ [t])).2 =
            (RateLimiter.run N RateLimiter.windowMs arrivals).2) := by
  obtain ⟨hle, hst, hcnt⟩ := RateLimiter.good_run (N := N) arrivals hsorted
  refine ⟨hcnt, ?_⟩
  intro t hch hN
  have hT : arrivals.getLastD 0 ≤ t :=
    RateLimiter.chain_getLastD_le (RateLimiter.chain_zero_of_sorted hch)
  have hkept : (RateLimiter.run N RateLimiter.windowMs arrivals).1.filter
      (fun a => decide (t < a + RateLimiter.windowMs)) =
      (RateLimiter.run N RateLimiter.windowMs arrivals).2.filter
        (fun a => decide (t < a + RateLimiter.windowMs)) := by
    rw [hst]
    exact RateLimiter.filter_window_shift hT _
  have hmono : (RateLimiter.run N RateLimiter.windowMs arrivals).2.countP
      (RateLimiter.inWindow RateLimiter.windowMs t) ≤
      (RateLimiter.run N RateLimiter.windowMs arrivals).2.countP
        (fun a => decide (t < a + RateLimiter.windowMs)) := by
    refine List.countP_mono_left (fun a _ hin => ?_)
    have hin2 : a ≤ t ∧ t < a + RateLimiter.windowMs := by
      simpa [RateLimiter.inWindow] using hin
    simpa using hin2.2
  have hlen : ¬ ((RateLimiter.run N RateLimiter.windowMs arrivals).1.filter
      (fun a => decide (t < a + RateLimiter.windowMs))).length < N := by
    rw [hkept]
    have hchain : N ≤ (RateLimiter.run N RateLimiter.windowMs arrivals).2.countP
        (fun a => decide (t < a + RateLimiter.windowMs)) := le_trans hN hmono
    rw [List.countP_eq_length_filter] at hchain
    omega
  have hstep : RateLimiter.step N RateLimiter.windowMs
      (RateLimiter.run N RateLimiter.windowMs arrivals).1 t =
      ((RateLimiter.run N RateLimiter.windowMs arrivals).1.filter
        (fun a => decide (t < a + RateLimiter.windowMs)), false) := by
    simp [RateLimiter.step, hlen]
  refine ⟨by rw [hstep], ?_⟩
  show (RateLimiter.runFrom N RateLimiter.windowMs ([], []) (arrivals ++ [t])).2 = _
  rw [RateLimiter.runFrom_append]
  show (RateLimiter.runFrom N RateLimiter.windowMs
      (RateLimiter.run N RateLimiter.windowMs arrivals) [t]).2 = _
  simp only [RateLimiter.runFrom, hstep]
  simp

/-- Witness for C4 at `N = 1`, arrivals 0 ms and 500 ms: the second command
was already rejected, and a third at 900 ms (still inside the window of
the admission at 0 ms) is rejected with the admitted set unchanged. -/
theorem c4_witness :
    (RateLimiter.step 1 RateLimiter.windowMs
        (RateLimiter.run 1 RateLimiter.windowMs [0, 500]).1 900).2 = false
    ∧ (RateLimiter.run 1 RateLimiter.windowMs ([0, 500] ++ [900])).2 =
        (RateLimiter.run 1 RateLimiter.windowMs [0, 500]).2 :=
  (c4_rate_limiter 1 [0, 500] (List.Chain.cons (by omega) List.Chain.nil)).2
    900 (List.Chain.cons (by omega) (List.Chain.cons (by omega) List.Chain.nil))
    (by decide)

/-! ## Claim C7 -/

/-- **C7**: feeding a byte stream to one `LineAssembler` in arbitrary
chunks returns, concatenated over the calls, exactly what feeding the
whole stream at once returns — the newline-terminated lines in order —
with the bytes after the last newline retained in the buffer (which never
holds a newline); in particular every split of `"AB\nCD\n"` yields
exactly the lines `"AB"`, `"CD"`, and an undecodable byte (0xFF) is
dropped without error. -/
theorem c7_line_assembler :
    (∀ (buf0 : List Nat) (chunks : List (List Nat)), 10 ∉ buf0 →
        Bridge.feedAll ⟨buf0⟩ chunks =
          Bridge.LineAssembler.feed ⟨buf0⟩ chunks.flatten)
    ∧ (∀ (buf0 data : List Nat),
        10 ∉ ((Bridge.LineAssembler.mk buf0).feed data).2.buf)
    ∧ (∀ chunks : List (List Nat), chunks.flatten = [65, 66, 10, 67, 68, 10] →
        Bridge.feedAll ⟨[]⟩ chunks = (["AB", "CD"], ⟨[]⟩))
    ∧ Bridge.decodeLine [255, 65] = "A" := by
  refine ⟨fun buf0 chunks h => Bridge.feedAll_join chunks ⟨buf0⟩ h, ?_, ?_, ?_⟩
  · intro buf0 data
    exact Bridge.no_nl_rem _
  · intro chunks hch
    rw [Bridge.feedAll_join chunks ⟨[]⟩ (by simp), hch]
    with_unfolding_all rfl
  · with_unfolding_all rfl

/-- Witness for C7: the split `"A" / "B\nC" / "D\n"` of `"AB\nCD\n"`
yields exactly the lines `"AB"`, `"CD"` and an empty buffer. -/
theorem c7_witness :
    Bridge.feedAll ⟨[]⟩ [[65], [66, 10, 67], [68, 10]] = (["AB", "CD"], ⟨[]⟩) :=
  c7_line_assembler.2.2.1 [[65], [66, 10, 67], [68, 10]] (by decide)

/-! ## Claim C8 -/

theorem foldl_submit_last :
    ∀ (rs : List Bridge.TelemetryRecord) (r : Bridge.TelemetryRecord)
      (slot : Option Bridge.TelemetryRecord),
      (rs ++ [r]).foldl PutWorker.submit slot = some r := by
  intro rs
  induction rs with
  | nil => intro r slot; simp [PutWorker.submit]
  | cons x xt ih => intro r slot; rw [List.cons_append, List.foldl_cons]; exact ih r _

/-- **C8**: between two ticks the coalescing uplink worker keeps a single
"latest pending" slot: after any burst of `N ≥ 1` submissions (a
non-empty list, written `rs ++ [r]` with `r` the last record), the next
tick sends exactly the last record submitted — earlier records are
overwritten, never queued — and clears the slot; a tick on an empty slot
sends nothing.  (At most one send per tick is inherent: `tick` returns at
most one record.) -/
theorem c8_coalescing_uplink (rs : List Bridge.TelemetryRecord)
    (r : Bridge.TelemetryRecord) (slot : Option Bridge.TelemetryRecord) :
    PutWorker.tick ((rs ++ [r]).foldl PutWorker.submit slot) = (some r, none)
    ∧ PutWorker.tick (none : Option Bridge.TelemetryRecord) = (none, none) := by
  refine ⟨?_, rfl⟩
  rw [foldl_submit_last rs r slot]
  rfl

/-- Two concrete telemetry records for witnesses. -/
def rec1 : Bridge.TelemetryRecord := ⟨21, 5, 0, Store.JVal.js "t1"⟩
def rec2 : Bridge.TelemetryRecord := ⟨22, 6, 1, Store.JVal.js "t2"⟩

/-- Witness for C8: two rapid records; the tick sends only the second. -/
theorem c8_witness :
    PutWorker.tick (([rec1] ++ [rec2]).foldl PutWorker.submit none) =
      (some rec2, none)
    ∧ PutWorker.tick (none : Option Bridge.TelemetryRecord) = (none, none) :=
  c8_coalescing_uplink [rec1] rec2 none

/-! ## Claim C9 -/

/-- A concrete desired actuator state for witnesses. -/
def d0 : LedWorker.LedDesire := ⟨true, (1, 2, 3), 50, some "T"⟩

/-- **C9**: on each poll the actuator sync worker compares the fetched
desired state by structural equality with the last value actually
applied: an equal value (or a failed fetch) causes zero downstream
writes; a differing value with `on = true` writes the brightness command
before the color command, in that fixed order, then records the fetched
value as last-applied (a differing value with `on = false` writes `OFF`);
consequently re-applying the same desired state right after an
application performs no write. -/
theorem c9_actuator_sync :
    (∀ (last : Option LedWorker.LedDesire) (d : LedWorker.LedDesire),
        some d = last → LedWorker.applyDesire last (some d) = ([], last))
    ∧ (∀ last, LedWorker.applyDesire last none = ([], last))
    ∧ (∀ (last : Option LedWorker.LedDesire) (d : LedWorker.LedDesire),
        some d ≠ last → d.ledOn = true →
        LedWorker.applyDesire last (some d) =
          (["BRIGHT " ++ toString d.brightness ++ "\n",
            "FILL " ++ toString d.rgb.1 ++ " " ++ toString d.rgb.2.1 ++ " "
              ++ toString d.rgb.2.2 ++ "\n"],
           some d))
    ∧ (∀ (last : Option LedWorker.LedDesire) (d : LedWorker.LedDesire),
        some d ≠ last → d.ledOn = false →
        LedWorker.applyDesire last (some d) = (["OFF\n"], some d))
    ∧ (∀ (last : Option LedWorker.LedDesire) (d : LedWorker.LedDesire),
        (LedWorker.applyDesire
          (LedWorker.applyDesire last (some d)).2 (some d)).1 = []) := by
  refine ⟨?_, ?_, ?_, ?_, ?_⟩
  · intro last d h
    simp [LedWorker.applyDesire, h]
  · intro last
    simp [LedWorker.applyDesire]
  · intro last d h hon
    simp [LedWorker.applyDesire, h, hon]
  · intro last d h hon
    simp [LedWorker.applyDesire, h, hon]
  · intro last d
    by_cases h : some d = last
    · simp [LedWorker.applyDesire, h]
    · by_cases hon : d.ledOn <;> simp [LedWorker.applyDesire, h, hon]

/-- Witness for C9: first poll of a fresh worker applies brightness 50
then color (1,2,3), in that order. -/
theorem c9_witness :
    LedWorker.applyDesire none (some d0) =
      (["BRIGHT " ++ toString d0.brightness ++ "\n",
        "FILL " ++ toString d0.rgb.1 ++ " " ++ toString d0.rgb.2.1 ++ " "
          ++ toString d0.rgb.2.2 ++ "\n"],
       some d0) :=
  c9_actuator_sync.2.2.1 none d0 (by decide) rfl

/-! ## Claim C10 -/

/-- **C10**: in the bridge normalizer a temperature whose parsed value is
exactly 0 is treated as absent — the candidate keys are combined with
Python `or` over their float values, and `0.0` is falsy — so
`temp_C=0.00` in a `SENS` line and `"temperatureC": 0` in a JSON object
both back-fill the temperature from the previous record; the light
fields, read without an `or` chain, keep a parsed 0. -/
theorem c10_zero_temperature_backfill :
    (∀ (last : Bridge.LastState) (now : String),
        Bridge.parse_line Bridge.jloadNone now
            "SENS,temp_C=0.00,light_raw=7,light_norm=0.25" last =
          some (Bridge.finalize_state last.temperatureC 7 (1/4)
            (Store.JVal.js now)))
    ∧ (∀ (last : Bridge.LastState) (now : String),
        Bridge.jsonBody (Store.JVal.jobj [("temperatureC", Store.JVal.ji 0)])
            last now =
          some (Bridge.finalize_state last.temperatureC (last.lightRaw : ℚ)
            last.lightNorm (Store.JVal.js now)))
    ∧ (∀ (last : Bridge.LastState) (now : String),
        (Bridge.parse_line Bridge.jloadNone now
            "SENS,temp_C=21.5,light_raw=0,light_norm=0.0" last).map
          Bridge.TelemetryRecord.lightRaw = some 0) := by
  refine ⟨?_, ?_, ?_⟩
  · intro last now
    with_unfolding_all rfl
  · intro last now
    with_unfolding_all rfl
  · intro last now
    with_unfolding_all rfl

/-! ## Dispatch lemmas for the node command parsers -/

/-- The verbs `code.py` dispatches on. -/
def knownVerbsCode : List String :=
  ["FILL", "FILLHEX", "BRIGHT", "OFF", "RESET", "GET?", "GET", "GETTEMP?",
   "TEMP?", "GETLIGHT?", "LIGHT?", "GETSENS?", "SENS?", "TELEM"]

/-- The verbs `Main.py` dispatches on (`code.py`'s plus the ACC queries). -/
def knownVerbsMain : List String :=
  ["FILL", "FILLHEX", "BRIGHT", "OFF", "RESET", "GET?", "GET", "GETTEMP?",
   "TEMP?", "GETLIGHT?", "LIGHT?", "GETACC?", "ACC?", "GETSENS?", "SENS?",
   "TELEM"]

theorem code_unknown_verb (env : CPB.Env) (s : CPB.NodeState) (p0 : String)
    (args : List String) (h : pyUpper p0 ∉ knownVerbsCode) :
    CPBCode.dispatchCmd env s (p0 :: args) = (s, [CPB.Out.err "unknown"]) := by
  simp only [knownVerbsCode, List.mem_cons, List.not_mem_nil, or_false] at h
  push_neg at h
  obtain ⟨h1, h2, h3, h4, h5, h6, h7, h8, h9, h10, h11, h12, h13, h14⟩ := h
  simp [CPBCode.dispatchCmd, h1, h2, h3, h4, h5, h6, h7, h8, h9, h10, h11, h12,
    h13, h14]

theorem main_unknown_verb (env : CPB.Env) (s : CPB.NodeState) (p0 : String)
    (args : List String) (h : pyUpper p0 ∉ knownVerbsMain) :
    CPBMain.dispatchCmd env s (p0 :: args) = (s, [CPB.Out.err "unknown"]) := by
  simp only [knownVerbsMain, List.mem_cons, List.not_mem_nil, or_false] at h
  push_neg at h
  obtain ⟨h1, h2, h3, h4, h5, h6, h7, h8, h9, h10, h11, h12, h13, h14, h15, h16⟩ := h
  simp [CPBMain.dispatchCmd, h1, h2, h3, h4, h5, h6, h7, h8, h9, h10, h11, h12,
    h13, h14, h15, h16]

theorem code_fill_arity (env : CPB.Env) (s : CPB.NodeState) (p0 : String)
    (args : List String) (h : pyUpper p0 = "FILL") (hl : args.length ≠ 3) :
    CPBCode.dispatchCmd env s (p0 :: args) = (s, [CPB.Out.err "unknown"]) := by
  simp [CPBCode.dispatchCmd, h, hl]

theorem main_fill_arity (env : CPB.Env) (s : CPB.NodeState) (p0 : String)
    (args : List String) (h : pyUpper p0 = "FILL") (hl : args.length ≠ 3) :
    CPBMain.dispatchCmd env s (p0 :: args) = (s, [CPB.Out.err "unknown"]) := by
  simp [CPBMain.dispatchCmd, h, hl]

theorem code_one_arg_arity (env : CPB.Env) (s : CPB.NodeState) (p0 : String)
    (args : List String)
    (h : pyUpper p0 = "FILLHEX" ∨ pyUpper p0 = "BRIGHT" ∨ pyUpper p0 = "TELEM")
    (hl : args.length ≠ 1) :
    CPBCode.dispatchCmd env s (p0 :: args) = (s, [CPB.Out.err "unknown"]) := by
  rcases h with h | h | h <;> simp [CPBCode.dispatchCmd, h, hl]

theorem main_one_arg_arity (env : CPB.Env) (s : CPB.NodeState) (p0 : String)
    (args : List String)
    (h : pyUpper p0 = "FILLHEX" ∨ pyUpper p0 = "BRIGHT" ∨ pyUpper p0 = "TELEM")
    (hl : args.length ≠ 1) :
    CPBMain.dispatchCmd env s (p0 :: args) = (s, [CPB.Out.err "unknown"]) := by
  rcases h with h | h | h <;> simp [CPBMain.dispatchCmd, h, hl]

theorem code_fill_parse_fail (env : CPB.Env) (s : CPB.NodeState)
    (a1 a2 a3 : String)
    (h : pyIntParse a1 = none ∨ pyIntParse a2 = none ∨ pyIntParse a3 = none) :
    CPBCode.dispatchCmd env s ["FILL", a1, a2, a3] =
      ({ s with state := CPB.STATE_RESET }, [CPB.Out.err "format"]) := by
  have hu : pyUpper "FILL" = "FILL" := by decide
  simp only [CPBCode.dispatchCmd, hu]
  cases hx : pyIntParse a1 with
  | none => simp [hx]
  | some r =>
    cases hy : pyIntParse a2 with
    | none => simp [hx, hy]
    | some g =>
      cases hz : pyIntParse a3 with
      | none => simp [hx, hy, hz]
      | some b => exfalso; rcases h with h | h | h <;> simp_all

theorem main_fill_parse_fail (env : CPB.Env) (s : CPB.NodeState)
    (a1 a2 a3 : String)
    (h : pyIntParse a1 = none ∨ pyIntParse a2 = none ∨ pyIntParse a3 = none) :
    CPBMain.dispatchCmd env s ["FILL", a1, a2, a3] =
      (s, [CPB.Out.err "format"]) := by
  have hu : pyUpper "FILL" = "FILL" := by decide
  simp only [CPBMain.dispatchCmd, hu]
  cases hx : pyIntParse a1 with
  | none => simp [hx]
  | some r =>
    cases hy : pyIntParse a2 with
    | none => simp [hx, hy]
    | some g =>
      cases hz : pyIntParse a3 with
      | none => simp [hx, hy, hz]
      | some b => exfalso; rcases h with h | h | h <;> simp_all

theorem code_bright_parse_fail (env : CPB.Env) (s : CPB.NodeState) (a : String)
    (h : pyIntParse a = none) :
    CPBCode.dispatchCmd env s ["BRIGHT", a] =
      ({ s with state := CPB.STATE_RESET }, [CPB.Out.err "format"]) := by
  have hu : pyUpper "BRIGHT" = "BRIGHT" := by decide
  simp [CPBCode.dispatchCmd, hu, h]

theorem main_bright_parse_fail (env : CPB.Env) (s : CPB.NodeState) (a : String)
    (h : pyIntParse a = none) :
    CPBMain.dispatchCmd env s ["BRIGHT", a] = (s, [CPB.Out.err "format"]) := by
  have hu : pyUpper "BRIGHT" = "BRIGHT" := by decide
  simp [CPBMain.dispatchCmd, hu, h]

theorem code_telem_parse_fail (env : CPB.Env) (s : CPB.NodeState) (a : String)
    (hoff : pyUpper a ≠ "OFF") (h : pyFloatParse a = none) :
    CPBCode.dispatchCmd env s ["TELEM", a] =
      ({ s with state := CPB.STATE_RESET }, [CPB.Out.err "format"]) := by
  have hu : pyUpper "TELEM" = "TELEM" := by decide
  simp [CPBCode.dispatchCmd, hu, hoff, h]

theorem main_telem_parse_fail (env : CPB.Env) (s : CPB.NodeState) (a : String)
    (hoff : pyUpper a ≠ "OFF") (h : pyFloatParse a = none) :
    CPBMain.dispatchCmd env s ["TELEM", a] = (s, [CPB.Out.err "format"]) := by
  have hu : pyUpper "TELEM" = "TELEM" := by decide
  simp [CPBMain.dispatchCmd, hu, hoff, h]

theorem code_fill_ok (env : CPB.Env) (s : CPB.NodeState) (a1 a2 a3 : String)
    (r g b : Int) (h1 : pyIntParse a1 = some r) (h2 : pyIntParse a2 = some g)
    (h3 : pyIntParse a3 = some b) :
    CPBCode.dispatchCmd env s ["FILL", a1, a2, a3] =
      ({ s with farben := CPB.set_all r g b },
       [CPB.Out.ok ("FILL " ++ toString r ++ " " ++ toString g ++ " "
          ++ toString b)]) := by
  have hu : pyUpper "FILL" = "FILL" := by decide
  simp [CPBCode.dispatchCmd, hu, h1, h2, h3]

theorem clamp8_bounds (x : Int) : 0 ≤ CPB.clamp8 x ∧ CPB.clamp8 x ≤ 255 := by
  unfold CPB.clamp8
  exact ⟨le_max_left 0 _, max_le (by norm_num) (min_le_left _ _)⟩

/-- The verbs without an arity check accept any argument count: `OFF`
with extra arguments still zeroes the actuator and answers `OK OFF`. -/
theorem code_off_args (env : CPB.Env) (s : CPB.NodeState) (p0 : String)
    (args : List String) (h : pyUpper p0 = "OFF") :
    CPBCode.dispatchCmd env s (p0 :: args) =
      ({ s with farben := CPB.set_all 0 0 0 }, [CPB.Out.ok "OFF"]) := by
  simp [CPBCode.dispatchCmd, h]

theorem main_off_args (env : CPB.Env) (s : CPB.NodeState) (p0 : String)
    (args : List String) (h : pyUpper p0 = "OFF") :
    CPBMain.dispatchCmd env s (p0 :: args) =
      ({ s with farben := CPB.set_all 0 0 0 }, [CPB.Out.ok "OFF"]) := by
  simp [CPBMain.dispatchCmd, h]

/-- `RESET` with extra arguments is still executed: `code.py` acknowledges
and sets `STATE_RESET`. -/
theorem code_reset_args (env : CPB.Env) (s : CPB.NodeState) (p0 : String)
    (args : List String) (h : pyUpper p0 = "RESET") :
    CPBCode.dispatchCmd env s (p0 :: args) =
      ({ s with state := CPB.STATE_RESET }, [CPB.Out.ok "RESET"]) := by
  simp [CPBCode.dispatchCmd, h]

/-- `RESET` with extra arguments in `Main.py` runs `reset_all()` directly. -/
theorem main_reset_args (env : CPB.Env) (s : CPB.NodeState) (p0 : String)
    (args : List String) (h : pyUpper p0 = "RESET") :
    CPBMain.dispatchCmd env s (p0 :: args) =
      (CPB.reset_all s, [CPB.Out.ok "RESET"]) := by
  simp [CPBMain.dispatchCmd, h]

/-- `GET?`/`GET` with extra arguments still answer the STAT line. -/
theorem code_get_args (env : CPB.Env) (s : CPB.NodeState) (p0 : String)
    (args : List String) (h : pyUpper p0 = "GET?" ∨ pyUpper p0 = "GET") :
    CPBCode.dispatchCmd env s (p0 :: args) =
      (s, [CPB.Out.stat (pyTrunc (s.brightness * 100)) s.farben]) := by
  rcases h with h | h <;> simp [CPBCode.dispatchCmd, h]

theorem main_get_args (env : CPB.Env) (s : CPB.NodeState) (p0 : String)
    (args : List String) (h : pyUpper p0 = "GET?" ∨ pyUpper p0 = "GET") :
    CPBMain.dispatchCmd env s (p0 :: args) =
      (s, [CPB.Out.stat (pyTrunc (s.brightness * 100)) s.farben]) := by
  rcases h with h | h <;> simp [CPBMain.dispatchCmd, h]

/-- The `hs` local of `set_all_hex`: the argument stripped, with every
leading `#` dropped. -/
def hexStr (a : String) : String :=
  String.mk ((pyStrip a).data.dropWhile (fun c => c = '#'))

/-- Characterisation of `code.py`'s `FILLHEX` branch in terms of
`hexStr`: the length-6 check, then the three `int(hs[i:i+2], 16)`
conversions, whose failure lands in the shared `except` branch. -/
theorem code_dispatch_fillhex (env : CPB.Env) (s : CPB.NodeState) (a : String) :
    CPBCode.dispatchCmd env s ["FILLHEX", a] =
      (if (hexStr a).length ≠ 6 then (s, [CPB.Out.err "hex"])
       else
         match pyIntParseHex (String.mk ((hexStr a).data.take 2)),
             pyIntParseHex (String.mk (((hexStr a).data.drop 2).take 2)),
             pyIntParseHex (String.mk (((hexStr a).data.drop 4).take 2)) with
         | some r, some g, some b =>
           ({ s with farben := CPB.set_all r g b },
            [CPB.Out.ok ("FILLHEX " ++ a)])
         | _, _, _ =>
           ({ s with state := CPB.STATE_RESET }, [CPB.Out.err "format"])) := by
  with_unfolding_all rfl

/-- Characterisation of `Main.py`'s `FILLHEX` branch: same conversions,
but the `except` branch leaves the state alone. -/
theorem main_dispatch_fillhex (env : CPB.Env) (s : CPB.NodeState) (a : String) :
    CPBMain.dispatchCmd env s ["FILLHEX", a] =
      (if (hexStr a).length ≠ 6 then (s, [CPB.Out.err "hex"])
       else
         match pyIntParseHex (String.mk ((hexStr a).data.take 2)),
             pyIntParseHex (String.mk (((hexStr a).data.drop 2).take 2)),
             pyIntParseHex (String.mk (((hexStr a).data.drop 4).take 2)) with
         | some r, some g, some b =>
           ({ s with farben := CPB.set_all r g b },
            [CPB.Out.ok ("FILLHEX " ++ a)])
         | _, _, _ => (s, [CPB.Out.err "format"])) := by
  with_unfolding_all rfl

theorem code_fillhex_parse_fail (env : CPB.Env) (s : CPB.NodeState)
    (a : String) (hlen : (hexStr a).length = 6)
    (h : pyIntParseHex (String.mk ((hexStr a).data.take 2)) = none ∨
         pyIntParseHex (String.mk (((hexStr a).data.drop 2).take 2)) = none ∨
         pyIntParseHex (String.mk (((hexStr a).data.drop 4).take 2)) = none) :
    CPBCode.dispatchCmd env s ["FILLHEX", a] =
      ({ s with state := CPB.STATE_RESET }, [CPB.Out.err "format"]) := by
  rw [code_dispatch_fillhex,
    if_neg (show ¬(hexStr a).length ≠ 6 from fun hne => hne hlen)]
  cases hx : pyIntParseHex (String.mk ((hexStr a).data.take 2)) with
  | none => simp [hx]
  | some r =>
    cases hy : pyIntParseHex (String.mk (((hexStr a).data.drop 2).take 2)) with
    | none => simp [hx, hy]
    | some g =>
      cases hz : pyIntParseHex (String.mk (((hexStr a).data.drop 4).take 2)) with
      | none => simp [hx, hy, hz]
      | some b => exfalso; rcases h with h | h | h <;> simp_all

theorem main_fillhex_parse_fail (env : CPB.Env) (s : CPB.NodeState)
    (a : String) (hlen : (hexStr a).length = 6)
    (h : pyIntParseHex (String.mk ((hexStr a).data.take 2)) = none ∨
         pyIntParseHex (String.mk (((hexStr a).data.drop 2).take 2)) = none ∨
         pyIntParseHex (String.mk (((hexStr a).data.drop 4).take 2)) = none) :
    CPBMain.dispatchCmd env s ["FILLHEX", a] = (s, [CPB.Out.err "format"]) := by
  rw [main_dispatch_fillhex,
    if_neg (show ¬(hexStr a).length ≠ 6 from fun hne => hne hlen)]
  cases hx : pyIntParseHex (String.mk ((hexStr a).data.take 2)) with
  | none => simp [hx]
  | some r =>
    cases hy : pyIntParseHex (String.mk (((hexStr a).data.drop 2).take 2)) with
    | none => simp [hx, hy]
    | some g =>
      cases hz : pyIntParseHex (String.mk (((hexStr a).data.drop 4).take 2)) with
      | none => simp [hx, hy, hz]
      | some b => exfalso; rcases h with h | h | h <;> simp_all

/-! ## Claim C1 -/

/-- **C1** counterexample, both failure modes of the claim: (1) `FILL 1 2 x`
is malformed (non-numeric argument where a number is required); the node
answers with an `ERR` line, as the claim says, but the connection state
does *not* stay as it was: the handler of `code.py` forces `STATE_RESET`,
contradicting "the connection state [is] left exactly as [it was]"; and
(2) `OFF 1` has a wrong argument count (`OFF` takes none), yet the
response is *not* an `ERR` line — the command is executed: the node
answers `OK OFF` and zeroes every actuator cell. -/
theorem c1_counterexample :
    (CPBCode.handle_command env0 s0 "FILL 1 2 x" =
        ({ s0 with state := CPB.STATE_RESET }, [CPB.Out.err "format"])
      ∧ s0.state ≠ CPB.STATE_RESET)
    ∧ (CPBCode.handle_command env0 s0 "OFF 1" =
        ({ s0 with farben := List.replicate 10 (0, 0, 0) }, [CPB.Out.ok "OFF"])
      ∧ CPB.Out.ok "OFF" ≠ CPB.Out.err "unknown"
      ∧ List.replicate 10 ((0 : Int), (0 : Int), (0 : Int)) ≠ s0.farben) :=
  ⟨⟨by with_unfolding_all rfl, by decide⟩,
   ⟨by with_unfolding_all rfl, by decide, by decide⟩⟩

/-- **C1** (amended): for malformed command lines on the node: an unknown
verb yields exactly an `ERR unknown` response and leaves the whole state —
actuator colors, brightness, telemetry period and connection state —
unchanged, in both node variants; a wrong argument count does the same,
but only for the verbs that check arity (`FILL`, and the one-argument
verbs `FILLHEX`/`BRIGHT`/`TELEM`) — the remaining verbs never check
their argument count, so a line such as `OFF 1`, `RESET 5` or `GET? x`
is *executed*, not rejected: `OFF` zeroes the actuator and answers
`OK OFF`, `RESET` answers `OK RESET` and sets `STATE_RESET` in `code.py`
(runs `reset_all` directly in `Main.py`), and `GET?`/`GET` answer the
STAT line; finally, a non-numeric argument where a number is required
yields an `ERR format` response with actuator and telemetry state
unchanged by the handler, but in `code.py` the connection state is forced
to `STATE_RESET` (whose later processing resets the actuator), while in
`Main.py` the state is left entirely unchanged. -/
theorem c1_malformed_commands :
    (∀ (env : CPB.Env) (s : CPB.NodeState) (p0 : String) (args : List String),
        pyUpper p0 ∉ knownVerbsCode →
        CPBCode.dispatchCmd env s (p0 :: args) = (s, [CPB.Out.err "unknown"]))
    ∧ (∀ (env : CPB.Env) (s : CPB.NodeState) (p0 : String) (args : List String),
        pyUpper p0 ∉ knownVerbsMain →
        CPBMain.dispatchCmd env s (p0 :: args) = (s, [CPB.Out.err "unknown"]))
    ∧ (∀ (env : CPB.Env) (s : CPB.NodeState) (p0 : String) (args : List String),
        pyUpper p0 = "FILL" → args.length ≠ 3 →
        CPBCode.dispatchCmd env s (p0 :: args) = (s, [CPB.Out.err "unknown"])
        ∧ CPBMain.dispatchCmd env s (p0 :: args) = (s, [CPB.Out.err "unknown"]))
    ∧ (∀ (env : CPB.Env) (s : CPB.NodeState) (p0 : String) (args : List String),
        (pyUpper p0 = "FILLHEX" ∨ pyUpper p0 = "BRIGHT" ∨ pyUpper p0 = "TELEM") →
        args.length ≠ 1 →
        CPBCode.dispatchCmd env s (p0 :: args) = (s, [CPB.Out.err "unknown"])
        ∧ CPBMain.dispatchCmd env s (p0 :: args) = (s, [CPB.Out.err "unknown"]))
    ∧ (∀ (env : CPB.Env) (s : CPB.NodeState) (a1 a2 a3 : String),
        (pyIntParse a1 = none ∨ pyIntParse a2 = none ∨ pyIntParse a3 = none) →
        CPBCode.dispatchCmd env s ["FILL", a1, a2, a3] =
          ({ s with state := CPB.STATE_RESET }, [CPB.Out.err "format"])
        ∧ CPBMain.dispatchCmd env s ["FILL", a1, a2, a3] =
            (s, [CPB.Out.err "format"]))
    ∧ (∀ (env : CPB.Env) (s : CPB.NodeState) (p0 : String) (args : List String),
        pyUpper p0 = "OFF" →
        CPBCode.dispatchCmd env s (p0 :: args) =
          ({ s with farben := CPB.set_all 0 0 0 }, [CPB.Out.ok "OFF"])
        ∧ CPBMain.dispatchCmd env s (p0 :: args) =
            ({ s with farben := CPB.set_all 0 0 0 }, [CPB.Out.ok "OFF"]))
    ∧ (∀ (env : CPB.Env) (s : CPB.NodeState) (p0 : String) (args : List String),
        pyUpper p0 = "RESET" →
        CPBCode.dispatchCmd env s (p0 :: args) =
          ({ s with state := CPB.STATE_RESET }, [CPB.Out.ok "RESET"])
        ∧ CPBMain.dispatchCmd env s (p0 :: args) =
            (CPB.reset_all s, [CPB.Out.ok "RESET"]))
    ∧ (∀ (env : CPB.Env) (s : CPB.NodeState) (p0 : String) (args : List String),
        (pyUpper p0 = "GET?" ∨ pyUpper p0 = "GET") →
        CPBCode.dispatchCmd env s (p0 :: args) =
          (s, [CPB.Out.stat (pyTrunc (s.brightness * 100)) s.farben])
        ∧ CPBMain.dispatchCmd env s (p0 :: args) =
            (s, [CPB.Out.stat (pyTrunc (s.brightness * 100)) s.farben])) :=
  ⟨code_unknown_verb, main_unknown_verb,
   fun env s p0 args h hl =>
     ⟨code_fill_arity env s p0 args h hl, main_fill_arity env s p0 args h hl⟩,
   fun env s p0 args h hl =>
     ⟨code_one_arg_arity env s p0 args h hl,
      main_one_arg_arity env s p0 args h hl⟩,
   fun env s a1 a2 a3 h =>
     ⟨code_fill_parse_fail env s a1 a2 a3 h,
      main_fill_parse_fail env s a1 a2 a3 h⟩,
   fun env s p0 args h =>
     ⟨code_off_args env s p0 args h, main_off_args env s p0 args h⟩,
   fun env s p0 args h =>
     ⟨code_reset_args env s p0 args h, main_reset_args env s p0 args h⟩,
   fun env s p0 args h =>
     ⟨code_get_args env s p0 args h, main_get_args env s p0 args h⟩⟩

/-- Witness for C1 at the unknown verb `PING` (a verb the spec's table
lists but the code does not implement), and at the wrong-arity line
`OFF 1`, which is executed rather than rejected. -/
theorem c1_witness :
    CPBCode.dispatchCmd env0 s0 ["PING"] = (s0, [CPB.Out.err "unknown"])
    ∧ CPBCode.dispatchCmd env0 s0 ["OFF", "1"] =
        ({ s0 with farben := CPB.set_all 0 0 0 }, [CPB.Out.ok "OFF"]) :=
  ⟨c1_malformed_commands.1 env0 s0 "PING" [] (by decide),
   (c1_malformed_commands.2.2.2.2.2.1 env0 s0 "OFF" ["1"] (by decide)).1⟩

/-! ## Claim C2 -/

/-- **C2** counterexample: on `FILL 999 -5 128` (the claim's `SET_ALL`
scenario) the stored color is indeed the clamped `(255, 0, 128)`, but the
success response echoes the *raw* parsed values — `OK FILL 999 -5 128` —
not the clamped ones, contradicting "the success response echoes the
clamped values" / scenario A's `OK SET_ALL 255 0 128`. -/
theorem c2_counterexample :
    CPBCode.handle_command env0 s0 "FILL 999 -5 128" =
      ({ s0 with farben := List.replicate 10 (255, 0, 128) },
       [CPB.Out.ok "FILL 999 -5 128"])
    ∧ CPB.Out.ok "FILL 999 -5 128" ≠ CPB.Out.ok "FILL 255 0 128" :=
  ⟨by with_unfolding_all rfl, by decide⟩

/-- **C2** (amended): for every `FILL` (spec name `SET_ALL`) whose three
arguments parse as integers, each component is clamped to the nearest
bound of [0,255] before being applied and the stored color of every cell
is within [0,255]³; the success response echoes the *unclamped* parsed
values, so `FILL 999 -5 128` answers `OK FILL 999 -5 128` while storing
`(255, 0, 128)`. -/
theorem c2_set_all_clamps (env : CPB.Env) (s : CPB.NodeState)
    (a1 a2 a3 : String) (r g b : Int) (h1 : pyIntParse a1 = some r)
    (h2 : pyIntParse a2 = some g) (h3 : pyIntParse a3 = some b) :
    CPBCode.dispatchCmd env s ["FILL", a1, a2, a3] =
      ({ s with farben := CPB.set_all r g b },
       [CPB.Out.ok ("FILL " ++ toString r ++ " " ++ toString g ++ " "
          ++ toString b)])
    ∧ CPB.set_all r g b =
        List.replicate CPB.NUM_PIXELS (CPB.clamp8 r, CPB.clamp8 g, CPB.clamp8 b)
    ∧ ∀ c ∈ CPB.set_all r g b,
        0 ≤ c.1 ∧ c.1 ≤ 255 ∧ 0 ≤ c.2.1 ∧ c.2.1 ≤ 255 ∧ 0 ≤ c.2.2 ∧
          c.2.2 ≤ 255 := by
  refine ⟨code_fill_ok env s a1 a2 a3 r g b h1 h2 h3, rfl, ?_⟩
  intro c hc
  have hceq := List.eq_of_mem_replicate hc
  subst hceq
  obtain ⟨hr1, hr2⟩ := clamp8_bounds r
  obtain ⟨hg1, hg2⟩ := clamp8_bounds g
  obtain ⟨hb1, hb2⟩ := clamp8_bounds b
  exact ⟨hr1, hr2, hg1, hg2, hb1, hb2⟩

/-- Witness for C2 at the scenario-A input. -/
theorem c2_witness :
    CPBCode.dispatchCmd env0 s0 ["FILL", "999", "-5", "128"] =
      ({ s0 with farben := CPB.set_all 999 (-5) 128 },
       [CPB.Out.ok ("FILL " ++ toString (999 : Int) ++ " "
          ++ toString (-5 : Int) ++ " " ++ toString (128 : Int))]) :=
  (c2_set_all_clamps env0 s0 "999" "-5" "128" 999 (-5) 128 (by decide)
    (by decide) (by decide)).1

/-! ## Claim C3 -/

/-- **C3** counterexample: in `Main.py` the exception raised while handling
`FILL 1 2 x` is caught and answered with `ERR format`, but the state
machine is *not* forced into `STATE_RESET` — the state is returned
unchanged (here `STATE_HANDLE`), contradicting "always forces the node's
state machine into the RESETTING state". -/
theorem c3_counterexample :
    CPBMain.handle_command env0 s0 "FILL 1 2 x" = (s0, [CPB.Out.err "format"])
    ∧ s0.state = CPB.STATE_HANDLE ∧ CPB.STATE_HANDLE ≠ CPB.STATE_RESET :=
  ⟨by with_unfolding_all rfl, rfl, by decide⟩

/-- **C3** (amended): every exception raised while handling a command line —
the four conversion sites are `FILL`'s `map(int, ...)`, `BRIGHT`'s
`int(...)`, `TELEM`'s `float(...)`, and `FILLHEX`'s `int(hs[i:i+2], 16)`
on a 6-character non-hex argument such as `FILLHEX ZZZZZZ` — is caught at
the command-dispatch boundary and answered with an `ERR format` response
in both node variants; none escapes the handler and none is silently
ignored; in `code.py` the handler additionally forces the state machine
into `STATE_RESET`, while in `Main.py` the state is left unchanged, so
the "always forces RESETTING" part holds only for `code.py`. -/
theorem c3_exception_handling :
    (∀ (env : CPB.Env) (s : CPB.NodeState) (a1 a2 a3 : String),
        (pyIntParse a1 = none ∨ pyIntParse a2 = none ∨ pyIntParse a3 = none) →
        CPBCode.dispatchCmd env s ["FILL", a1, a2, a3] =
          ({ s with state := CPB.STATE_RESET }, [CPB.Out.err "format"])
        ∧ CPBMain.dispatchCmd env s ["FILL", a1, a2, a3] =
            (s, [CPB.Out.err "format"]))
    ∧ (∀ (env : CPB.Env) (s : CPB.NodeState) (a : String),
        pyIntParse a = none →
        CPBCode.dispatchCmd env s ["BRIGHT", a] =
          ({ s with state := CPB.STATE_RESET }, [CPB.Out.err "format"])
        ∧ CPBMain.dispatchCmd env s ["BRIGHT", a] = (s, [CPB.Out.err "format"]))
    ∧ (∀ (env : CPB.Env) (s : CPB.NodeState) (a : String),
        pyUpper a ≠ "OFF" → pyFloatParse a = none →
        CPBCode.dispatchCmd env s ["TELEM", a] =
          ({ s with state := CPB.STATE_RESET }, [CPB.Out.err "format"])
        ∧ CPBMain.dispatchCmd env s ["TELEM", a] = (s, [CPB.Out.err "format"]))
    ∧ (∀ (env : CPB.Env) (s : CPB.NodeState) (a : String),
        (hexStr a).length = 6 →
        (pyIntParseHex (String.mk ((hexStr a).data.take 2)) = none ∨
         pyIntParseHex (String.mk (((hexStr a).data.drop 2).take 2)) = none ∨
         pyIntParseHex (String.mk (((hexStr a).data.drop 4).take 2)) = none) →
        CPBCode.dispatchCmd env s ["FILLHEX", a] =
          ({ s with state := CPB.STATE_RESET }, [CPB.Out.err "format"])
        ∧ CPBMain.dispatchCmd env s ["FILLHEX", a] =
            (s, [CPB.Out.err "format"])) :=
  ⟨fun env s a1 a2 a3 h =>
     ⟨code_fill_parse_fail env s a1 a2 a3 h,
      main_fill_parse_fail env s a1 a2 a3 h⟩,
   fun env s a h =>
     ⟨code_bright_parse_fail env s a h, main_bright_parse_fail env s a h⟩,
   fun env s a hoff h =>
     ⟨code_telem_parse_fail env s a hoff h,
      main_telem_parse_fail env s a hoff h⟩,
   fun env s a hlen h =>
     ⟨code_fillhex_parse_fail env s a hlen h,
      main_fillhex_parse_fail env s a hlen h⟩⟩

/-- Witness for C3: a non-numeric `BRIGHT` argument and the non-hex
`FILLHEX ZZZZZZ` are both caught, answered `ERR format`, reset the state
machine in `code.py` and leave it alone in `Main.py`. -/
theorem c3_witness :
    (CPBCode.dispatchCmd env0 s0 ["BRIGHT", "zz"] =
        ({ s0 with state := CPB.STATE_RESET }, [CPB.Out.err "format"])
      ∧ CPBMain.dispatchCmd env0 s0 ["BRIGHT", "zz"] =
          (s0, [CPB.Out.err "format"]))
    ∧ (CPBCode.dispatchCmd env0 s0 ["FILLHEX", "ZZZZZZ"] =
        ({ s0 with state := CPB.STATE_RESET }, [CPB.Out.err "format"])
      ∧ CPBMain.dispatchCmd env0 s0 ["FILLHEX", "ZZZZZZ"] =
          (s0, [CPB.Out.err "format"])) :=
  ⟨c3_exception_handling.2.1 env0 s0 "zz" (by decide),
   c3_exception_handling.2.2.2 env0 s0 "ZZZZZZ" (by decide) (by decide)⟩

/-! ## Claim C5 -/

theorem clamp_int_bounds {v : Store.JVal} {lo hi k : Int} (hlohi : lo ≤ hi)
    (h : Store.clamp_int v lo hi = some k) : lo ≤ k ∧ k ≤ hi := by
  unfold Store.clamp_int at h
  cases hpv : Store.pyIntOfJVal v with
  | none => rw [hpv] at h; simp at h
  | some n =>
    rw [hpv] at h
    simp only [Option.map_some'] at h
    obtain rfl := Option.some.inj h
    exact ⟨le_max_left lo _, max_le hlohi (min_le_left hi n)⟩

theorem ledPut_spec (p : List (String × Store.JVal)) (l : Store.LedState)
    (n : String) :
    (∃ m, Store.ledPut p l n = (Store.LedResp.badRequest m, l)) ∨
    (∃ onB r g b bri, 0 ≤ r ∧ r ≤ 255 ∧ 0 ≤ g ∧ g ≤ 255 ∧ 0 ≤ b ∧ b ≤ 255 ∧
      0 ≤ bri ∧ bri ≤ 100 ∧
      Store.ledPut p l n =
        (Store.LedResp.ok ⟨onB, [r, g, b], bri, some n⟩,
         ⟨onB, [r, g, b], bri, some n⟩)) := by
  cases h1 : Store.onField p l with
  | none =>
    exact Or.inl ⟨"on must be boolean", by simp [Store.ledPut, h1]⟩
  | some onB =>
    cases h2 : Store.rgbField p l with
    | none =>
      exact Or.inl ⟨"rgb must be [r,g,b]", by simp [Store.ledPut, h1, h2]⟩
    | some xs =>
      by_cases h3 : xs.length = 3
      · obtain ⟨x0, x1, x2, rfl⟩ := List.length_eq_three.mp h3
        cases h4 : Store.clamp_int x0 0 255 with
        | none =>
          exact Or.inl ⟨"invalid rgb/brightness",
            by simp [Store.ledPut, h1, h2, h4]⟩
        | some r =>
          cases h5 : Store.clamp_int x1 0 255 with
          | none =>
            exact Or.inl ⟨"invalid rgb/brightness",
              by simp [Store.ledPut, h1, h2, h4, h5]⟩
          | some g =>
            cases h6 : Store.clamp_int x2 0 255 with
            | none =>
              exact Or.inl ⟨"invalid rgb/brightness",
                by simp [Store.ledPut, h1, h2, h4, h5, h6]⟩
            | some b =>
              cases h7 : Store.clamp_int ((Store.objGet p "brightness").getD
                  (Store.JVal.ji l.brightness)) 0 100 with
              | none =>
                exact Or.inl ⟨"invalid rgb/brightness",
                  by simp [Store.ledPut, h1, h2, h4, h5, h6, h7]⟩
              | some bri =>
                obtain ⟨hr1, hr2⟩ := clamp_int_bounds (by norm_num) h4
                obtain ⟨hg1, hg2⟩ := clamp_int_bounds (by norm_num) h5
                obtain ⟨hb1, hb2⟩ := clamp_int_bounds (by norm_num) h6
                obtain ⟨hq1, hq2⟩ := clamp_int_bounds (by norm_num) h7
                exact Or.inr ⟨onB, r, g, b, bri, hr1, hr2, hg1, hg2, hb1, hb2,
                  hq1, hq2, by simp [Store.ledPut, h1, h2, h4, h5, h6, h7]⟩
      · exact Or.inl ⟨"rgb must be [r,g,b]", by simp [Store.ledPut, h1, h2, h3]⟩

/-- **C5** counterexample: the scenario-B body
`{"on":true,"rgb":[10,20,300],"brightness":150}` is *not* rejected with a
400 error: the server clamps the out-of-range component and brightness
(`300 → 255`, `150 → 100`) and stores the result, answering 200. -/
theorem c5_counterexample :
    Store.ledPut Store.scenarioB Store.initialLED "T" =
      (Store.LedResp.ok ⟨true, [10, 20, 255], 100, some "T"⟩,
       ⟨true, [10, 20, 255], 100, some "T"⟩)
    ∧ (⟨true, [10, 20, 255], 100, some "T"⟩ : Store.LedState) ≠
        Store.initialLED :=
  ⟨by with_unfolding_all rfl, by decide⟩

/-- **C5** (amended): `PUT /led` validates that `on` is a boolean and that
`rgb` has the right shape, and every 400 answer leaves the stored LED
state unchanged; but numeric range is *not* validated: each rgb component
and the brightness are converted with `int()` and clamped (rgb to
[0,255], brightness to [0,100]; only a failing conversion yields 400), so
every successful reply stores in-range values and stamps `updatedAt`, and
the scenario-B body `{"on":true,"rgb":[10,20,300],"brightness":150}` is
accepted, storing rgb `[10,20,255]` and brightness `100`. -/
theorem c5_led_put_validation :
    (∀ (p : List (String × Store.JVal)) (l : Store.LedState) (n m : String),
        (Store.ledPut p l n).1 = Store.LedResp.badRequest m →
        (Store.ledPut p l n).2 = l)
    ∧ (∀ (p : List (String × Store.JVal)) (l : Store.LedState) (n : String)
        (st : Store.LedState),
        (Store.ledPut p l n).1 = Store.LedResp.ok st →
        (Store.ledPut p l n).2 = st ∧ st.rgb.length = 3 ∧
          (∀ c ∈ st.rgb, 0 ≤ c ∧ c ≤ 255) ∧ 0 ≤ st.brightness ∧
          st.brightness ≤ 100 ∧ st.updatedAt = some n)
    ∧ (∀ (p : List (String × Store.JVal)) (l : Store.LedState) (n : String)
        (v : Store.JVal),
        Store.objGet p "on" = some v → (∀ b, v ≠ Store.JVal.jb b) →
        Store.ledPut p l n = (Store.LedResp.badRequest "on must be boolean", l))
    ∧ Store.ledPut Store.scenarioB Store.initialLED "T" =
        (Store.LedResp.ok ⟨true, [10, 20, 255], 100, some "T"⟩,
         ⟨true, [10, 20, 255], 100, some "T"⟩) := by
  refine ⟨?_, ?_, ?_, by with_unfolding_all rfl⟩
  · intro p l n m h
    rcases ledPut_spec p l n with ⟨m2, hbad⟩ |
      ⟨onB, r, g, b, bri, _, _, _, _, _, _, _, _, hok⟩
    · rw [hbad]
    · rw [hok] at h; simp at h
  · intro p l n st h
    rcases ledPut_spec p l n with ⟨m2, hbad⟩ |
      ⟨onB, r, g, b, bri, hr1, hr2, hg1, hg2, hb1, hb2, hq1, hq2, hok⟩
    · rw [hbad] at h; simp at h
    · rw [hok] at h ⊢
      simp only at h
      obtain rfl := Store.LedResp.ok.inj h
      refine ⟨rfl, rfl, ?_, hq1, hq2, rfl⟩
      intro c hc
      simp only [List.mem_cons, List.not_mem_nil, or_false] at hc
      rcases hc with rfl | rfl | rfl
      · exact ⟨hr1, hr2⟩
      · exact ⟨hg1, hg2⟩
      · exact ⟨hb1, hb2⟩
  · intro p l n v hv hnb
    have hon : Store.onField p l = none := by
      unfold Store.onField
      rw [hv]
      cases v with
      | jb b => exact absurd rfl (hnb b)
      | null => rfl
      | ji k => rfl
      | jq q => rfl
      | js t => rfl
      | jarr xs => rfl
      | jobj f => rfl
    simp [Store.ledPut, hon]

/-- Witness for C5: a numeric `on` value is rejected with 400 and leaves
the stored state unchanged. -/
theorem c5_witness :
    Store.ledPut [("on", Store.JVal.ji 1)] Store.initialLED "T" =
      (Store.LedResp.badRequest "on must be boolean", Store.initialLED) :=
  c5_led_put_validation.2.2.1 [("on", Store.JVal.ji 1)] Store.initialLED "T"
    (Store.JVal.ji 1) (by with_unfolding_all rfl)
    (fun b h => Store.JVal.noConfusion h)

/-! ## Claim C6 -/

/-- **C6** counterexample: the line `temp=25` is a loose `key=value` token
line — the spec's form (c), which `_TOKEN_RE` would match — yet the
normalizer returns no record for it: the token form is never attempted
(`_TOKEN_RE` is defined but unused by `parse_line`). -/
theorem c6_counterexample :
    Bridge.parse_line Bridge.jloadNone "T" "temp=25" last0 = none := by
  with_unfolding_all rfl

/-- **C6** (amended): the normalizer tries only two forms, (a) the tagged
`SENS` key=value form and then (b) the brace-wrapped JSON form; the loose
`key[:=]value` token form is never attempted.  A stripped line with the
`SENS` prefix always yields a record — even with zero recognized fields,
everything back-filled from `last`; a brace-wrapped line is given to
`json.loads` and its object normalized (`None` when parsing or the branch
body raises); every other line, token lines included, yields no record;
the embedded normalizer is total (it never raises). -/
theorem c6_normalizer_forms :
    (∀ (jload : String → Option Store.JVal) (now line : String)
        (last : Bridge.LastState),
        pyStrip line ≠ "" → strStartsWith (pyStrip line) "SENS" = true →
        Bridge.parse_line jload now line last =
          some (Bridge.sensBranch (pyStrip line) last now))
    ∧ (∀ (jload : String → Option Store.JVal) (now line : String)
        (last : Bridge.LastState),
        strStartsWith (pyStrip line) "SENS" = false →
        (strStartsWith (pyStrip line) "\x7b" &&
          strEndsWith (pyStrip line) "\x7d") = true →
        Bridge.parse_line jload now line last =
          (match jload (pyStrip line) with
           | some raw => Bridge.jsonBody raw last now
           | none => none))
    ∧ (∀ (jload : String → Option Store.JVal) (now line : String)
        (last : Bridge.LastState),
        pyStrip line ≠ "" →
        strStartsWith (pyStrip line) "SENS" = false →
        (strStartsWith (pyStrip line) "\x7b" &&
          strEndsWith (pyStrip line) "\x7d") = false →
        Bridge.parse_line jload now line last = none)
    ∧ (∀ (jload : String → Option Store.JVal) (now : String)
        (last : Bridge.LastState),
        Bridge.parse_line jload now "SENS" last =
          some (Bridge.finalize_state last.temperatureC (last.lightRaw : ℚ)
            last.lightNorm (Store.JVal.js now))) := by
  refine ⟨?_, ?_, ?_, ?_⟩
  · intro jload now line last h1 h2
    simp [Bridge.parse_line, h1, h2]
  · intro jload now line last h1 h2
    have hne : pyStrip line ≠ "" := by
      intro h0
      rw [h0] at h2
      exact absurd h2 (by decide)
    simp [Bridge.parse_line, hne, h1, h2]
  · intro jload now line last h0 h1 h2
    simp [Bridge.parse_line, h0, h1, h2]
  · intro jload now last
    with_unfolding_all rfl

/-- Witness for C6: the line `hello` matches neither form and is dropped
without a record. -/
theorem c6_witness :
    Bridge.parse_line Bridge.jloadNone "T" "hello" last0 = none :=
  c6_normalizer_forms.2.2.1 Bridge.jloadNone "T" "hello" last0 (by decide)
    (by decide) (by decide)
